import Mathlib

/-!
Verification of the servergem2 deployment pipeline engine.

Shallow embedding of the relevant parts of the source:
  * `src/backend/services/monitoring.py`         (metrics recorder)
  * `src/backend/services/gcloud_service.py`     (retry strategy, build streaming)
  * `src/backend/services/deployment_progress.py`(progress tracker)
  * `src/backend/agents/orchestrator.py`         (`_handle_deploy_to_cloudrun`)

Machine floats are modelled by rationals; wall-clock reads (`time.time()`,
`datetime.now()`) are explicit parameters threaded through the state
transitions.  Python dicts are insertion-ordered association lists.
-/

namespace ServerGem

/-- Python dict assignment `d[k] = v`: if the key is present its value is
overwritten in place (insertion position kept), otherwise the pair is
appended at the end. -/
def dictSet {α : Type} : List (String × α) → String → α → List (String × α)
  | [], k, v => [(k, v)]
  | p :: d, k, v => if p.1 == k then (k, v) :: d else p :: dictSet d k v

/-- Python dict lookup `d.get(k)` / membership `k in d`. -/
def dictGet {α : Type} : List (String × α) → String → Option α
  | [], _ => none
  | p :: d, k => if p.1 == k then some p.2 else dictGet d k

/-! ## Metrics recorder (`monitoring.py`) -/

/-- One entry of `DeploymentMetrics.stages`:
`{'status': ..., 'duration': ..., 'timestamp': ..., 'metadata': ...}`. -/
structure StageRecord where
  status : String
  duration : ℚ
  timestamp : ℚ
  metadata : List (String × String)
deriving Repr, DecidableEq

/-- `DeploymentMetrics` dataclass. -/
structure DeploymentMetrics where
  deployment_id : String
  service_name : String
  start_time : ℚ
  end_time : Option ℚ
  status : String
  stages : List (String × StageRecord)
  errors : List String
deriving Repr, DecidableEq

/-- `DeploymentMetrics.record_stage`: `self.stages[stage] = {...}` with
`timestamp = time.time()` passed as `now` and `metadata or {}`. -/
def DeploymentMetrics.record_stage (m : DeploymentMetrics)
    (stage status : String) (duration : ℚ) (now : ℚ)
    (metadata : Option (List (String × String))) : DeploymentMetrics :=
  let entry : StageRecord :=
    { status := status, duration := duration, timestamp := now,
      metadata := metadata.getD [] }
  { m with stages := dictSet m.stages stage entry }

/-- `DeploymentMetrics.complete`. -/
def DeploymentMetrics.complete (m : DeploymentMetrics) (status : String)
    (now : ℚ) : DeploymentMetrics :=
  { m with end_time := some now, status := status }

/-- `DeploymentMetrics.get_duration`: `(self.end_time or time.time()) - self.start_time`. -/
def DeploymentMetrics.get_duration (m : DeploymentMetrics) (now : ℚ) : ℚ :=
  m.end_time.getD now - m.start_time

/-- The process-wide `self.metrics` dict of `MonitoringService`. -/
structure Metrics where
  total_deployments : ℤ
  successful_deployments : ℤ
  failed_deployments : ℤ
  avg_deployment_time : ℚ
  error_rate : ℚ
deriving Repr, DecidableEq

/-- `MonitoringService` state: `self.deployments` and `self.metrics`. -/
structure MonitoringService where
  deployments : List (String × DeploymentMetrics)
  metrics : Metrics
deriving Repr, DecidableEq

/-- A freshly constructed `MonitoringService()`. -/
def initMonitoring : MonitoringService :=
  { deployments := [],
    metrics :=
      { total_deployments := 0, successful_deployments := 0,
        failed_deployments := 0, avg_deployment_time := 0, error_rate := 0 } }

/-- `MonitoringService.start_deployment` (note: increments
`total_deployments`). -/
def MonitoringService.start_deployment (s : MonitoringService)
    (deployment_id service_name : String) (now : ℚ) : MonitoringService :=
  let fresh : DeploymentMetrics :=
    { deployment_id := deployment_id, service_name := service_name,
      start_time := now, end_time := none, status := "in_progress",
      stages := [], errors := [] }
  let m' := { s.metrics with total_deployments := s.metrics.total_deployments + 1 }
  { s with deployments := dictSet s.deployments deployment_id fresh, metrics := m' }

/-- `MonitoringService.record_stage`: guarded by
`if deployment_id in self.deployments`. -/
def MonitoringService.record_stage (s : MonitoringService)
    (deployment_id stage status : String) (duration now : ℚ) :
    MonitoringService :=
  match dictGet s.deployments deployment_id with
  | none => s
  | some m =>
    let m' := m.record_stage stage status duration now none
    { s with deployments := dictSet s.deployments deployment_id m' }

/-- `MonitoringService.complete_deployment`: early-returns on an unknown id,
otherwise bumps the success/failure counter, recomputes the running mean
`((current_avg * (total - 1)) + duration) / total` and the error rate
`failed / total`. -/
def MonitoringService.complete_deployment (s : MonitoringService)
    (deployment_id status : String) (now : ℚ) : MonitoringService :=
  match dictGet s.deployments deployment_id with
  | none => s
  | some d =>
    let d' := d.complete status now
    let succ' := if status = "success" then s.metrics.successful_deployments + 1 else s.metrics.successful_deployments
    let fail' := if status = "success" then s.metrics.failed_deployments else s.metrics.failed_deployments + 1
    let total : ℤ := s.metrics.total_deployments
    let new_avg : ℚ :=
      (s.metrics.avg_deployment_time * ((total : ℚ) - 1) + d'.get_duration now) / (total : ℚ)
    let m3 : Metrics :=
      { total_deployments := total, successful_deployments := succ',
        failed_deployments := fail', avg_deployment_time := new_avg,
        error_rate := (fail' : ℚ) / (total : ℚ) }
    { s with deployments := dictSet s.deployments deployment_id d', metrics := m3 }

/-- `MonitoringService.record_error`: guarded append to the run's `errors`. -/
def MonitoringService.record_error (s : MonitoringService)
    (deployment_id error : String) : MonitoringService :=
  match dictGet s.deployments deployment_id with
  | none => s
  | some m =>
    let m' := { m with errors := m.errors ++ [error] }
    { s with deployments := dictSet s.deployments deployment_id m' }

/-- `MonitoringService.get_deployment_metrics`: the per-run record, `None`
for an unknown id. -/
def MonitoringService.get_deployment_metrics (s : MonitoringService)
    (deployment_id : String) : Option DeploymentMetrics :=
  dictGet s.deployments deployment_id


/-! ## Dictionary lemmas -/

theorem dictGet_dictSet_self {α : Type} (d : List (String × α)) (k : String)
    (v : α) : dictGet (dictSet d k v) k = some v := by
  induction d with
  | nil => simp [dictSet, dictGet]
  | cons p d ih =>
    by_cases hp : (p.1 == k) = true
    · simp [dictSet, dictGet, hp]
    · simp [dictSet, dictGet, hp, ih]

theorem dictGet_dictSet_ne {α : Type} (d : List (String × α)) (k k' : String)
    (v : α) (h : k' ≠ k) : dictGet (dictSet d k v) k' = dictGet d k' := by
  have hkk : (k == k') = false := by
    simp [beq_iff_eq]
    exact fun e => h e.symm
  induction d with
  | nil => simp [dictSet, dictGet, hkk]
  | cons p d ih =>
    by_cases hp : (p.1 == k) = true
    · have : (p.1 == k') = false := by
        have := beq_iff_eq.mp hp
        simp [this, beq_iff_eq]
        exact fun e => h e.symm
      simp [dictSet, dictGet, hp, hkk, this]
    · simp [dictSet, dictGet, hp, ih]

theorem dictSet_fresh {α : Type} (d : List (String × α)) (k : String) (v : α)
    (h : dictGet d k = none) : dictSet d k v = d ++ [(k, v)] := by
  induction d with
  | nil => simp [dictSet]
  | cons p d ih =>
    by_cases hp : (p.1 == k) = true
    · simp [dictGet, hp] at h
    · simp [dictGet, hp] at h
      simp [dictSet, hp, ih h]

theorem dictSet_keys {α : Type} (d : List (String × α)) (k : String) (v : α)
    (h : dictGet d k ≠ none) :
    (dictSet d k v).map Prod.fst = d.map Prod.fst := by
  induction d with
  | nil => simp [dictGet] at h
  | cons p d ih =>
    by_cases hp : (p.1 == k) = true
    · simp [dictSet, hp, beq_iff_eq.mp hp]
    · simp [dictGet, hp] at h
      simp [dictSet, hp, ih h]

/-! ## Claims about the metrics recorder -/

/-- Claim C10: recorder operations on a deployment id that was never started
leave the whole recorder state unchanged and raise nothing, and the per-run
query returns `none`. -/
theorem claim_C10_unknown_id_noop (s : MonitoringService)
    (id stage status cstatus err : String) (duration now cnow : ℚ)
    (h : dictGet s.deployments id = none) :
    s.record_stage id stage status duration now = s ∧
    s.complete_deployment id cstatus cnow = s ∧
    s.record_error id err = s ∧
    s.get_deployment_metrics id = none := by
  refine ⟨?_, ?_, ?_, ?_⟩ <;>
    simp [MonitoringService.record_stage, MonitoringService.complete_deployment,
      MonitoringService.record_error, MonitoringService.get_deployment_metrics, h]

theorem claim_C10_witness :
    initMonitoring.record_stage "d1" "build" "success" 1 2 = initMonitoring ∧
    initMonitoring.complete_deployment "d1" "failed" 3 = initMonitoring ∧
    initMonitoring.record_error "d1" "boom" = initMonitoring ∧
    initMonitoring.get_deployment_metrics "d1" = none :=
  claim_C10_unknown_id_noop initMonitoring "d1" "build" "success" "failed" "boom"
    1 2 3 (by decide)

/-- Claim C3 counterexample: `start_deployment` already mutates the aggregate
counters (it increments `total_deployments`), so run completion is not the
only mutator. -/
theorem claim_C3_counterexample :
    (initMonitoring.start_deployment "d1" "svc" 0).metrics ≠
      initMonitoring.metrics := by
  decide

/-- Claim C3 (amended): `complete_deployment` is the only operation that
mutates the success count, failure count, average duration and error rate;
`record_stage` and `record_error` leave all aggregate counters unchanged,
while `start_deployment` additionally increments exactly the total-run
counter. -/
theorem claim_C3_frame (s : MonitoringService) (id stage status nm err : String)
    (duration now t : ℚ) :
    (s.record_stage id stage status duration now).metrics = s.metrics ∧
    (s.record_error id err).metrics = s.metrics ∧
    (s.start_deployment id nm t).metrics
      = { s.metrics with total_deployments := s.metrics.total_deployments + 1 } := by
  refine ⟨?_, ?_, rfl⟩
  · cases hd : dictGet s.deployments id <;>
      simp [MonitoringService.record_stage, hd]
  · cases hd : dictGet s.deployments id <;>
      simp [MonitoringService.record_error, hd]

/-- Concrete deployment-metrics record used in counterexamples. -/
def sampleMetrics : DeploymentMetrics :=
  { deployment_id := "d1", service_name := "svc", start_time := 0,
    end_time := none, status := "in_progress", stages := [], errors := [] }

/-- Claim C9 counterexample: recording the same stage name twice overwrites
the existing entry in place, so an entry is not immutable once present. -/
theorem claim_C9_counterexample :
    dictGet ((sampleMetrics.record_stage "build" "success" 1 10 none).record_stage
        "build" "failed" 2 20 none).stages "build"
      ≠ dictGet (sampleMetrics.record_stage "build" "success" 1 10 none).stages "build" ∧
    ((sampleMetrics.record_stage "build" "success" 1 10 none).record_stage
        "build" "failed" 2 20 none).stages.length
      = (sampleMetrics.record_stage "build" "success" 1 10 none).stages.length := by
  decide

/-- Claim C9 (amended): `record_stage` with a fresh stage name appends the new
entry at the end; with an existing name it overwrites that entry in place
(key order unchanged, other entries untouched); completing the run or
recording an error never changes the stage mapping. -/
theorem claim_C9_append_or_overwrite (s : MonitoringService)
    (id stage status cstatus err : String) (duration now cnow : ℚ)
    (m : DeploymentMetrics) (hm : dictGet s.deployments id = some m) :
    (dictGet (s.record_stage id stage status duration now).deployments id
       = some (m.record_stage stage status duration now none)) ∧
    (dictGet m.stages stage = none →
       (m.record_stage stage status duration now none).stages
         = m.stages ++ [(stage, { status := status, duration := duration, timestamp := now, metadata := [] })]) ∧
    (dictGet m.stages stage ≠ none →
       (m.record_stage stage status duration now none).stages.map Prod.fst
         = m.stages.map Prod.fst) ∧
    (∀ k, k ≠ stage →
       dictGet (m.record_stage stage status duration now none).stages k
         = dictGet m.stages k) ∧
    (dictGet (s.complete_deployment id cstatus cnow).deployments id
       = some (m.complete cstatus cnow)) ∧
    ((m.complete cstatus cnow).stages = m.stages) ∧
    (dictGet (s.record_error id err).deployments id
       = some { m with errors := m.errors ++ [err] }) := by
  refine ⟨?_, ?_, ?_, ?_, ?_, rfl, ?_⟩
  · simp [MonitoringService.record_stage, hm, dictGet_dictSet_self]
  · intro hfresh
    simp [DeploymentMetrics.record_stage, dictSet_fresh _ _ _ hfresh]
  · intro hold
    simp [DeploymentMetrics.record_stage, dictSet_keys _ _ _ hold]
  · intro k hk
    simp [DeploymentMetrics.record_stage, dictGet_dictSet_ne _ _ _ _ hk]
  · simp [MonitoringService.complete_deployment, hm, dictGet_dictSet_self]
  · simp [MonitoringService.record_error, hm, dictGet_dictSet_self]

theorem claim_C9_witness :
    (dictGet ((initMonitoring.start_deployment "d1" "svc" 0).record_stage
        "d1" "validation" "success" 1 2).deployments "d1").map
      (fun m => m.stages.map Prod.fst) = some ["validation"] := by
  have h0 : dictGet (initMonitoring.start_deployment "d1" "svc" 0).deployments "d1"
      = some { deployment_id := "d1", service_name := "svc", start_time := 0,
               end_time := none, status := "in_progress", stages := [], errors := [] } := by
    decide
  have h := claim_C9_append_or_overwrite (initMonitoring.start_deployment "d1" "svc" 0)
    "d1" "validation" "success" "failed" "e" 1 2 3 _ h0
  rw [h.1]
  decide

/-! ## Claim C5: aggregate statistics over a sequence of runs -/

/-- A sequence of non-overlapping runs: each `(id, duration, ok)` is started
and then completed `duration` seconds later, before the next run starts. -/
def runSeq (s : MonitoringService) (t : ℚ) :
    List (String × ℚ × Bool) → MonitoringService
  | [] => s
  | r :: rest =>
    let s1 := s.start_deployment r.1 r.1 t
    let s2 := s1.complete_deployment r.1
      (if r.2.2 then "success" else "failed") (t + r.2.1)
    runSeq s2 (t + r.2.1) rest

theorem step_metrics (s : MonitoringService) (id : String) (ok : Bool)
    (t d : ℚ) :
    ((s.start_deployment id id t).complete_deployment id
        (if ok then "success" else "failed") (t + d)).metrics =
      { total_deployments := s.metrics.total_deployments + 1,
        successful_deployments := s.metrics.successful_deployments + (if ok then 1 else 0),
        failed_deployments := s.metrics.failed_deployments + (if ok then 0 else 1),
        avg_deployment_time :=
          (s.metrics.avg_deployment_time * (s.metrics.total_deployments : ℚ) + d) /
            ((s.metrics.total_deployments : ℚ) + 1),
        error_rate :=
          ((s.metrics.failed_deployments + (if ok then 0 else 1) : ℤ) : ℚ) /
            ((s.metrics.total_deployments : ℚ) + 1) } := by
  cases ok <;>
    simp only [MonitoringService.start_deployment,
      MonitoringService.complete_deployment, dictGet_dictSet_self,
      DeploymentMetrics.complete, DeploymentMetrics.get_duration,
      Option.getD, if_true, if_false] <;>
    simp [Metrics.mk.injEq]

theorem runSeq_metrics (runs : List (String × ℚ × Bool)) :
    ∀ (s : MonitoringService) (t : ℚ), 0 ≤ s.metrics.total_deployments →
    ((runSeq s t runs).metrics.total_deployments
        = s.metrics.total_deployments + runs.length) ∧
    ((runSeq s t runs).metrics.successful_deployments
        = s.metrics.successful_deployments + (runs.countP (fun r => r.2.2) : ℤ)) ∧
    ((runSeq s t runs).metrics.failed_deployments
        = s.metrics.failed_deployments + (runs.countP (fun r => !r.2.2) : ℤ)) ∧
    ((runSeq s t runs).metrics.avg_deployment_time * ((runSeq s t runs).metrics.total_deployments : ℚ)
        = s.metrics.avg_deployment_time * (s.metrics.total_deployments : ℚ)
          + ((runs.map (fun r => r.2.1)).sum)) ∧
    (runs ≠ [] → (runSeq s t runs).metrics.error_rate
        = ((runSeq s t runs).metrics.failed_deployments : ℚ)
          / ((runSeq s t runs).metrics.total_deployments : ℚ)) := by
  induction runs with
  | nil =>
    intro s t _
    simp [runSeq]
  | cons r rest ih =>
    intro s t hpos
    obtain ⟨id, d, ok⟩ := r
    have hrw : runSeq s t ((id, d, ok) :: rest)
        = runSeq ((s.start_deployment id id t).complete_deployment id
            (if ok then "success" else "failed") (t + d)) (t + d) rest := rfl
    have hstep := step_metrics s id ok t d
    set s2 := ((s.start_deployment id id t).complete_deployment id
      (if ok then "success" else "failed") (t + d)) with hs2
    have hpos2 : 0 ≤ s2.metrics.total_deployments := by
      rw [hstep]; simp; omega
    have htotpos : ((s.metrics.total_deployments : ℚ) + 1) ≠ 0 := by
      have h0 : (0 : ℚ) ≤ (s.metrics.total_deployments : ℚ) := by exact_mod_cast hpos
      positivity
    obtain ⟨iht, ihsucc, ihfail, ihavg, iherr⟩ := ih s2 (t + d) hpos2
    refine ⟨?_, ?_, ?_, ?_, ?_⟩
    · rw [hrw, iht, hstep]
      simp [List.length_cons]
      omega
    · rw [hrw, ihsucc, hstep]
      simp only [List.countP_cons]
      cases ok <;> simp <;> push_cast <;> omega
    · rw [hrw, ihfail, hstep]
      simp only [List.countP_cons]
      cases ok <;> simp <;> push_cast <;> omega
    · rw [hrw, ihavg, hstep]
      simp only [List.map_cons, List.sum_cons]
      push_cast
      rw [div_mul_cancel₀ _ htotpos]
      ring
    · intro _
      rcases rest with _ | ⟨r2, rest2⟩
      · rw [hrw]
        show (runSeq s2 (t + d) []).metrics.error_rate = _
        simp only [runSeq]
        rw [hstep]
        push_cast
        ring_nf
      · rw [hrw]
        exact iherr (by simp)

theorem countP_not_eq {α : Type} (l : List α) (p : α → Bool) :
    l.countP (fun a => !(p a)) = l.length - l.countP p := by
  induction l with
  | nil => simp
  | cons a l ih =>
    have hle := List.countP_le_length p (l := l)
    by_cases hp : p a = true <;> simp [List.countP_cons, hp, ih] <;> omega

/-- Claim C5 (amended): for non-overlapping runs (each completed before the
next starts) the recorder's final error rate is `(N - S) / N` and the final
average duration is the exact arithmetic mean of the run durations; with
overlapping runs the average diverges from the mean (see the
counterexample). -/
theorem claim_C5_sequential (runs : List (String × ℚ × Bool)) (t : ℚ)
    (hne : runs ≠ []) :
    (runSeq initMonitoring t runs).metrics.error_rate
      = ((runs.length : ℚ) - (runs.countP (fun r => r.2.2) : ℚ)) / (runs.length : ℚ) ∧
    (runSeq initMonitoring t runs).metrics.avg_deployment_time
      = ((runs.map (fun r => r.2.1)).sum) / (runs.length : ℚ) := by
  obtain ⟨iht, ihsucc, ihfail, ihavg, iherr⟩ :=
    runSeq_metrics runs initMonitoring t (by simp [initMonitoring])
  rw [show initMonitoring.metrics.total_deployments = 0 from rfl, zero_add] at iht
  rw [show initMonitoring.metrics.failed_deployments = 0 from rfl, zero_add] at ihfail
  rw [show initMonitoring.metrics.avg_deployment_time = 0 from rfl, zero_mul,
    zero_add] at ihavg
  have hlen : (0 : ℚ) < (runs.length : ℚ) := by
    have : 0 < runs.length := List.length_pos.mpr hne
    exact_mod_cast this
  have hlen' : ((runs.length : ℚ)) ≠ 0 := ne_of_gt hlen
  constructor
  · rw [iherr hne, ihfail, iht]
    rw [countP_not_eq]
    have hle := List.countP_le_length (fun r => r.2.2) (l := runs)
    push_cast [Nat.cast_sub hle]
    try ring_nf
  · have havg := ihavg
    rw [iht] at havg
    simp at havg
    rw [eq_div_iff hlen']
    exact_mod_cast havg

theorem claim_C5_witness :
    (runSeq initMonitoring 0 [("a", 2, true), ("b", 4, false)]).metrics.error_rate
      = 1 / 2 ∧
    (runSeq initMonitoring 0 [("a", 2, true), ("b", 4, false)]).metrics.avg_deployment_time
      = 3 := by
  obtain ⟨h1, h2⟩ :=
    claim_C5_sequential [("a", 2, true), ("b", 4, false)] 0 (by simp)
  constructor
  · rw [h1]
    norm_num [List.countP_cons]
  · rw [h2]
    norm_num

/-- Two overlapping runs: both started at time 0, both completed at time 4. -/
def c5Overlap : MonitoringService :=
  ((((initMonitoring.start_deployment "a" "svc" 0).start_deployment
      "b" "svc" 0).complete_deployment "a" "success" 4).complete_deployment
      "b" "success" 4)

/-- Claim C5 counterexample: with two overlapping runs of duration 4 each,
the recorded average duration is 3, not the arithmetic mean 4, because the
running-mean formula divides by the total started (not completed) so far. -/
theorem claim_C5_counterexample :
    c5Overlap.metrics.total_deployments = 2 ∧
    c5Overlap.metrics.successful_deployments = 2 ∧
    c5Overlap.metrics.avg_deployment_time = 3 ∧
    ((4 : ℚ) + 4) / 2 = 4 ∧ (3 : ℚ) ≠ 4 := by
  refine ⟨?_, ?_, ?_, by norm_num, by norm_num⟩ <;>
  · simp +decide [c5Overlap, initMonitoring, MonitoringService.start_deployment,
      MonitoringService.complete_deployment, DeploymentMetrics.complete,
      DeploymentMetrics.get_duration, dictGet, dictSet]
    try norm_num

/-! ## Stage executor: `RetryStrategy` (`gcloud_service.py`) -/

/-- `RetryStrategy.__init__(max_retries, base_delay)`. -/
structure RetryStrategy where
  max_retries : ℕ
  base_delay : ℚ
deriving Repr, DecidableEq

/-- Trace of one `RetryStrategy.execute` call: its outcome (an `Except.error
none` models `raise None` when `max_retries = 0`), the number of times the
operation was invoked, and the retry log — one `(attempt + 1, delay)` entry
per `logging.warning` / `asyncio.sleep`. -/
structure RetryTrace (E α : Type) where
  result : Except (Option E) α
  calls : ℕ
  log : List (ℕ × ℚ)
deriving Repr

/-- The `for attempt in range(self.max_retries)` loop of
`RetryStrategy.execute`; `fuel` is the number of remaining iterations
(`max - attempt`), the operation is indexed by the attempt number, and
`last` is the `last_exception` variable.  On a failed attempt with
`attempt < max_retries - 1` it logs `(attempt + 1, base_delay * 2 ^ attempt)`
and sleeps before retrying; after the loop it raises `last_exception`. -/
def retryLoop {E α : Type} (op : ℕ → Except E α) (base_delay : ℚ)
    (max_retries : ℕ) : ℕ → ℕ → Option E → RetryTrace E α
  | 0, _, last => { result := Except.error last, calls := 0, log := [] }
  | fuel + 1, attempt, _ =>
    match op attempt with
    | Except.ok v => { result := Except.ok v, calls := 1, log := [] }
    | Except.error e =>
      let rest := retryLoop op base_delay max_retries fuel (attempt + 1) (some e)
      if attempt < max_retries - 1 then
        { result := rest.result, calls := rest.calls + 1,
          log := (attempt + 1, base_delay * 2 ^ attempt) :: rest.log }
      else
        { result := rest.result, calls := rest.calls + 1, log := rest.log }

/-- `RetryStrategy.execute(func)`. -/
def RetryStrategy.execute {E α : Type} (r : RetryStrategy)
    (op : ℕ → Except E α) : RetryTrace E α :=
  retryLoop op r.base_delay r.max_retries r.max_retries 0 none

theorem retryLoop_allFail {E α : Type} (op : ℕ → Except E α) (b : ℚ)
    (max : ℕ) (e : E) (hop : ∀ i, op i = Except.error e) :
    ∀ (fuel attempt : ℕ) (last : Option E), attempt + fuel = max → 0 < fuel →
      (retryLoop op b max fuel attempt last).result = Except.error (some e) ∧
      (retryLoop op b max fuel attempt last).calls = fuel := by
  intro fuel
  induction fuel with
  | zero => intro attempt last _ h; omega
  | succ n ih =>
    intro attempt last hmax _
    rw [retryLoop]
    simp only [hop attempt]
    rcases Nat.eq_zero_or_pos n with hn | hn
    · subst hn
      have hlt : ¬ attempt < max - 1 := by omega
      rw [if_neg hlt]
      refine ⟨?_, ?_⟩
      · show (retryLoop op b max 0 (attempt + 1) (some e)).result = _
        rw [retryLoop]
      · show (retryLoop op b max 0 (attempt + 1) (some e)).calls + 1 = 1
        rw [retryLoop]
    · have hrec := ih (attempt + 1) (some e) (by omega) hn
      by_cases hlt : attempt < max - 1
      · rw [if_pos hlt]
        exact ⟨hrec.1, by rw [show (retryLoop op b max n (attempt + 1)
          (some e)).calls = n from hrec.2]⟩
      · rw [if_neg hlt]
        exact ⟨hrec.1, by rw [show (retryLoop op b max n (attempt + 1)
          (some e)).calls = n from hrec.2]⟩

/-- Claim C6: for an operation that fails on every invocation with error `e`
and `max_retries ≥ 1`, `execute` invokes the operation exactly `max_retries`
times and then raises the operation's error. -/
theorem claim_C6_retry_exhaustion {E α : Type} (r : RetryStrategy)
    (op : ℕ → Except E α) (e : E) (hmax : 1 ≤ r.max_retries)
    (hop : ∀ i, op i = Except.error e) :
    (r.execute op).result = Except.error (some e) ∧
    (r.execute op).calls = r.max_retries :=
  retryLoop_allFail op r.base_delay r.max_retries e hop r.max_retries 0 none
    (Nat.zero_add _) hmax

theorem claim_C6_witness :
    (RetryStrategy.execute { max_retries := 3, base_delay := 1 }
        (fun _ => (Except.error "boom" : Except String ℕ))).result
      = Except.error (some "boom") ∧
    (RetryStrategy.execute { max_retries := 3, base_delay := 1 }
        (fun _ => (Except.error "boom" : Except String ℕ))).calls = 3 :=
  claim_C6_retry_exhaustion { max_retries := 3, base_delay := 1 }
    (fun _ => Except.error "boom") "boom" (by decide) (fun _ => rfl)

theorem retryLoop_failThenOk {E α : Type} (op : ℕ → Except E α) (b : ℚ)
    (max : ℕ) (v : α) :
    ∀ (k : ℕ) (e : ℕ → E) (fuel attempt : ℕ) (last : Option E),
      attempt + fuel = max → k < fuel →
      (∀ i, i < k → op (attempt + i) = Except.error (e i)) →
      op (attempt + k) = Except.ok v →
      (retryLoop op b max fuel attempt last).result = Except.ok v ∧
      (retryLoop op b max fuel attempt last).calls = k + 1 ∧
      (retryLoop op b max fuel attempt last).log
        = (List.range k).map (fun i => (attempt + i + 1, b * 2 ^ (attempt + i))) := by
  intro k
  induction k with
  | zero =>
    intro e fuel attempt last hmax hk hfail hok
    obtain ⟨n, rfl⟩ : ∃ n, fuel = n + 1 := ⟨fuel - 1, by omega⟩
    rw [Nat.add_zero] at hok
    rw [retryLoop, hok]
    exact ⟨rfl, rfl, rfl⟩
  | succ k ih =>
    intro e fuel attempt last hmax hk hfail hok
    obtain ⟨n, rfl⟩ : ∃ n, fuel = n + 1 := ⟨fuel - 1, by omega⟩
    have h0 : op attempt = Except.error (e 0) := by
      have := hfail 0 (by omega)
      simpa using this
    rw [retryLoop]
    simp only [h0]
    have hlt : attempt < max - 1 := by omega
    rw [if_pos hlt]
    have hrec := ih (fun i => e (i + 1)) n (attempt + 1) (some (e 0))
      (by omega) (by omega)
      (fun i hi => by
        have := hfail (i + 1) (by omega)
        rw [show attempt + 1 + i = attempt + (i + 1) by omega]
        exact this)
      (by rw [show attempt + 1 + k = attempt + (k + 1) by omega]; exact hok)
    refine ⟨hrec.1, ?_, ?_⟩
    · show (retryLoop op b max n (attempt + 1) (some (e 0))).calls + 1 = k + 1 + 1
      rw [hrec.2.1]
    · show (attempt + 1, b * 2 ^ attempt) ::
        (retryLoop op b max n (attempt + 1) (some (e 0))).log = _
      rw [hrec.2.2]
      rw [List.range_succ_eq_map, List.map_cons, List.map_map]
      congr 1
      apply List.map_congr_left
      intro i _
      show (attempt + 1 + i + 1, b * 2 ^ (attempt + 1 + i))
          = (attempt + (i + 1) + 1, b * 2 ^ (attempt + (i + 1)))
      rw [show attempt + 1 + i = attempt + (i + 1) from by omega]

/-- Claim C7: for an operation that fails exactly `k` times (with `k` below
the retry bound) and then succeeds, `execute` returns the successful result
after `k + 1` invocations and logs exactly `k` retry attempts, the `i`-th
(0-based) carrying the pre-sleep delay `base_delay * 2 ^ i`. -/
theorem claim_C7_retry_then_success {E α : Type} (r : RetryStrategy)
    (op : ℕ → Except E α) (e : ℕ → E) (v : α) (k : ℕ)
    (hk : k < r.max_retries)
    (hfail : ∀ i, i < k → op i = Except.error (e i))
    (hok : op k = Except.ok v) :
    (r.execute op).result = Except.ok v ∧
    (r.execute op).calls = k + 1 ∧
    (r.execute op).log
      = (List.range k).map (fun i => (i + 1, r.base_delay * 2 ^ i)) ∧
    (r.execute op).log.length = k := by
  have h := retryLoop_failThenOk op r.base_delay r.max_retries v k e
    r.max_retries 0 none (Nat.zero_add _) hk
    (fun i hi => by simpa using hfail i hi) (by simpa using hok)
  refine ⟨h.1, h.2.1, ?_, ?_⟩
  · show (retryLoop op r.base_delay r.max_retries r.max_retries 0 none).log = _
    rw [h.2.2]
    apply List.map_congr_left
    intro i _
    simp
  · show (retryLoop op r.base_delay r.max_retries r.max_retries 0 none).log.length = _
    rw [h.2.2]
    simp

theorem claim_C7_witness :
    (RetryStrategy.execute { max_retries := 3, base_delay := 1 }
        (fun i => if i < 2 then (Except.error "transient" : Except String ℕ)
                  else Except.ok 42)).result = Except.ok 42 ∧
    (RetryStrategy.execute { max_retries := 3, base_delay := 1 }
        (fun i => if i < 2 then (Except.error "transient" : Except String ℕ)
                  else Except.ok 42)).calls = 3 ∧
    (RetryStrategy.execute { max_retries := 3, base_delay := 1 }
        (fun i => if i < 2 then (Except.error "transient" : Except String ℕ)
                  else Except.ok 42)).log = [(1, 1), (2, 2)] := by
  have h := claim_C7_retry_then_success { max_retries := 3, base_delay := 1 }
    (fun i => if i < 2 then (Except.error "transient" : Except String ℕ)
              else Except.ok 42)
    (fun _ => "transient") 42 2 (by decide)
    (fun i hi => by simp [hi]) (by simp)
  refine ⟨h.1, h.2.1, ?_⟩
  rw [h.2.2.1]
  simp [List.range_succ]
  try norm_num

/-! ## Raw build-output translation (`GCloudService.build_image`) -/

/-- `needle` is a prefix of `hay` (character lists). -/
def charPrefix : List Char → List Char → Bool
  | [], _ => true
  | _ :: _, [] => false
  | a :: as, b :: bs => a == b && charPrefix as bs

/-- `needle` occurs inside `hay` (character lists). -/
def charContains : List Char → List Char → Bool
  | needle, [] => needle.isEmpty
  | needle, c :: rest => charPrefix needle (c :: rest) || charContains needle rest

/-- Python `needle in hay` for strings. -/
def containsSubstr (needle hay : String) : Bool :=
  charContains needle.toList hay.toList

/-- The per-line progress update of `build_image`'s streaming loop:
fetch/pull lines clamp to 30, step lines to 70, push lines to 90 and a
completion marker sets 95; any other line leaves progress unchanged. -/
def updateBuildProgress (progress : ℕ) (line : String) : ℕ :=
  if containsSubstr "Fetching" line || containsSubstr "Pulling" line then
    min (progress + 2) 30
  else if containsSubstr "Step" line then min (progress + 3) 70
  else if containsSubstr "Pushing" line then min (progress + 5) 90
  else if containsSubstr "DONE" line || containsSubstr "SUCCESS" line then 95
  else progress

/-- Progress values sent to the callback for each non-empty streamed line
(empty lines are skipped by `continue`; lines are already stripped). -/
def buildStreamGo (p : ℕ) : List String → List ℕ
  | [] => []
  | l :: ls =>
    if l = "" then buildStreamGo p ls
    else
      let p' := updateBuildProgress p l
      p' :: buildStreamGo p' ls

/-- All progress values `build_image` sends through its `progress_callback`:
the initial 10, one value per non-empty output line, and a final 100 when
the build subprocess exits successfully. -/
def buildImageProgress (lines : List String) (success : Bool) : List ℕ :=
  10 :: (buildStreamGo 10 lines ++ (if success then [100] else []))

/-! ## Progress tracker (`deployment_progress.py`) -/

/-- One message handed to the sink, with the metadata the tracker attaches
(the `type`/`timestamp` envelope fields are not modelled). -/
structure ProgressEvent where
  content : String
  stage : Option String
  progress : ℕ
  deployment_id : String
  service_name : String
deriving Repr, DecidableEq

/-- Mutable state of one `DeploymentProgressTracker`. -/
structure TrackerState where
  deployment_id : String
  service_name : String
  has_callback : Bool
  current_progress : ℕ
deriving Repr, DecidableEq

/-- The injected `progress_callback`; `Except.error` models the callback
raising (disconnected client). -/
def Sink : Type := ProgressEvent → Except String Unit

/-- `DeploymentProgressTracker.emit`: returns without doing anything when no
callback is set; otherwise updates `current_progress` first, then hands the
event to the sink inside try/except — a raising sink drops the event and
logs a local warning instead of propagating. -/
def emit (ts : TrackerState) (sink : Sink) (message : String)
    (stage : Option String) (progress : Option ℕ) :
    TrackerState × List ProgressEvent × List String :=
  if ts.has_callback = false then (ts, [], [])
  else
    let ts' := match progress with
      | some p => { ts with current_progress := p }
      | none => ts
    let ev : ProgressEvent :=
      { content := message, stage := stage, progress := ts'.current_progress,
        deployment_id := ts.deployment_id, service_name := ts.service_name }
    let delivered := match sink ev with
      | Except.ok _ => [ev]
      | Except.error _ => []
    let warnings := match sink ev with
      | Except.ok _ => []
      | Except.error e =>
        ["[DeploymentProgress] Warning: Could not emit progress: " ++ e]
    (ts', delivered, warnings)

/-- Accumulated tracker state, delivered events and local warnings. -/
abbrev EmitAcc := TrackerState × List ProgressEvent × List String

/-- One `await self.emit(...)` call, threading the accumulator. -/
def stepEmit (acc : EmitAcc) (sink : Sink) (message : String)
    (stage : Option String) (progress : Option ℕ) : EmitAcc :=
  let r := emit acc.1 sink message stage progress
  (r.1, acc.2.1 ++ r.2.1, acc.2.2 ++ r.2.2)

namespace DeploymentProgressTracker

/-- Maps a raw build percentage into the build stage's band:
`65 + int(percentage * 0.15)` (exact for the produced values). -/
def mapBuildProgress (p : ℕ) : ℕ := 65 + p * 15 / 100

def start_security_scan (acc : EmitAcc) (sink : Sink) : EmitAcc :=
  stepEmit acc sink "[SecurityService] Starting security scan"
    (some "security_scan") (some 55)

def emit_security_check (acc : EmitAcc) (sink : Sink) (check_name : String)
    (passed : Bool) : EmitAcc :=
  stepEmit acc sink
    ("[SecurityService] " ++ (if passed then "✓" else "✗") ++ " " ++ check_name)
    (some "security_scan") none

def complete_security_scan (acc : EmitAcc) (sink : Sink)
    (issues_found : ℕ) : EmitAcc :=
  if issues_found = 0 then
    stepEmit acc sink
      "[SecurityService] Security scan complete - No vulnerabilities found"
      (some "security_scan") (some 60)
  else
    stepEmit acc sink
      ("[SecurityService] Security scan complete - " ++ toString issues_found
        ++ " issues detected")
      (some "security_scan") (some 60)

def start_container_build (acc : EmitAcc) (sink : Sink)
    (image_tag : String) : EmitAcc :=
  stepEmit acc sink ("[DockerService] Building container image: " ++ image_tag)
    (some "container_build") (some 65)

def emit_build_progress (acc : EmitAcc) (sink : Sink) (percentage : ℕ) :
    EmitAcc :=
  stepEmit acc sink ("[CloudBuild] Building " ++ toString percentage ++ "%")
    (some "container_build") (some (mapBuildProgress percentage))

def complete_container_build (acc : EmitAcc) (sink : Sink)
    (image_digest : String) : EmitAcc :=
  let a1 := stepEmit acc sink "[CloudBuild] Container image built successfully"
    (some "container_build") (some 80)
  stepEmit a1 sink
    ("[CloudBuild] Image digest: " ++ (image_digest.take 20) ++ "...")
    (some "container_build") none

def start_cloud_deployment (acc : EmitAcc) (sink : Sink)
    (service_name region : String) : EmitAcc :=
  let a1 := stepEmit acc sink "[GCloudService] Deploying to Cloud Run"
    (some "cloud_deployment") (some 85)
  stepEmit a1 sink
    ("[GCloudService] Service: " ++ service_name ++ " | Region: " ++ region)
    (some "cloud_deployment") none

def emit_deployment_config (acc : EmitAcc) (sink : Sink)
    (cpu memory : String) (concurrency : ℕ) : EmitAcc :=
  let a1 := stepEmit acc sink
    ("[GCloudService] Configuration: " ++ cpu ++ " CPU, " ++ memory ++ " RAM")
    (some "cloud_deployment") (some 90)
  stepEmit a1 sink
    ("[GCloudService] Concurrency: " ++ toString concurrency ++ " requests")
    (some "cloud_deployment") none

def complete_cloud_deployment (acc : EmitAcc) (sink : Sink)
    (service_url : String) : EmitAcc :=
  let a1 := stepEmit acc sink "[GCloudService] Deployment successful"
    (some "cloud_deployment") (some 100)
  let a2 := stepEmit a1 sink ("[GCloudService] Service URL: " ++ service_url)
    (some "cloud_deployment") none
  stepEmit a2 sink "[GCloudService] Auto HTTPS enabled, auto-scaling configured"
    (some "cloud_deployment") none

def emit_error (acc : EmitAcc) (sink : Sink)
    (stage error_message : String) : EmitAcc :=
  stepEmit acc sink ("[ERROR] " ++ stage ++ ": " ++ error_message)
    (some stage) none

def emit_warning (acc : EmitAcc) (sink : Sink)
    (warning_message : String) : EmitAcc :=
  stepEmit acc sink ("[WARNING] " ++ warning_message) none none

end DeploymentProgressTracker

/-! ## Pipeline orchestrator (`orchestrator._handle_deploy_to_cloudrun`) -/

/-- Responses of the external collaborators consumed by one
`_handle_deploy_to_cloudrun` call: the security service's name/env
validation and Dockerfile scan, the Docker service's Dockerfile check, the
optimizer's resource config, and the build backend result.  The build
duration is the measured `time.time()` difference.  The `deploy_*` fields
model the deploy backend's would-be response; they are never consulted,
because the `deploy_to_cloudrun` call raises `TypeError` (unexpected
`user_id` keyword) before the backend runs. -/
structure DeployInputs where
  service_name : String
  env_vars : Option (List (String × String))
  name_valid : Bool
  sanitized_name : String
  env_issues : List String
  dockerfile_valid : Bool
  scan_secure : Bool
  scan_issues : List String
  cpu : String
  memory : String
  concurrency : ℕ
  build_success : Bool
  build_lines : List String
  build_error : String
  build_image_tag : String
  build_duration : ℚ
  deploy_success : Bool
  deploy_error : String
  deploy_url : String
  deploy_duration : ℚ
deriving Repr

/-- Observable outcome of one `_handle_deploy_to_cloudrun` call.  The chat
response is reduced to its `type` tag and deployment URL; `deploy_attempted`
records whether control reached the `deploy_to_cloudrun` call site (the
call itself always raises `TypeError`: it is passed an unexpected
`user_id` keyword). -/
structure DeployResult where
  mon : MonitoringService
  tracker : TrackerState
  events : List ProgressEvent
  warnings : List String
  response_type : String
  deployment_url : Option String
  deploy_attempted : Bool
deriving Repr

/-- Forwarding of `build_image` progress callbacks through the
orchestrator's `build_progress` closure: the service never sends a `step`
key and every callback carries a truthy `progress`, so each one becomes
`tracker.emit_build_progress(progress)`. -/
def forwardBuildEvents (acc : EmitAcc) (sink : Sink) (ps : List ℕ) : EmitAcc :=
  ps.foldl (fun a p => DeploymentProgressTracker.emit_build_progress a sink p) acc

/-- Monitoring effects up to and including the validation stage: start the
run, record env-var issues (when env vars are present and issues were
found), then record the `validation` stage with the literal 0.5s duration. -/
def monValidated (inp : DeployInputs) (mon0 : MonitoringService)
    (deployment_id : String) (t0 : ℚ) : MonitoringService :=
  let mon1 := mon0.start_deployment deployment_id inp.service_name t0
  let env_present := match inp.env_vars with
    | none => false
    | some l => !l.isEmpty
  let mon2 :=
    if env_present && !inp.env_issues.isEmpty then
      mon1.record_error deployment_id
        ("Environment variable issues: " ++ String.intercalate ", " inp.env_issues)
    else mon1
  mon2.record_stage deployment_id "validation" "success" (1 / 2) t0

/-- Monitoring effects of the security scan: when the scan is insecure the
first three issues are recorded as errors. -/
def monScanned (inp : DeployInputs) (mon : MonitoringService)
    (deployment_id : String) : MonitoringService :=
  if inp.scan_secure = false then
    (inp.scan_issues.take 3).foldl
      (fun s issue => s.record_error deployment_id ("Security: " ++ issue)) mon
  else mon

/-- Progress events of the security-scan stage
(`start_security_scan` … `complete_security_scan`). -/
def scanEvents (inp : DeployInputs) (acc : EmitAcc) (sink : Sink) : EmitAcc :=
  let a1 := DeploymentProgressTracker.start_security_scan acc sink
  let a2 := DeploymentProgressTracker.emit_security_check a1 sink
    "Base image validation" inp.scan_secure
  let a3 := DeploymentProgressTracker.emit_security_check a2 sink
    "Privilege escalation check"
    (!(inp.scan_issues.any (fun i => containsSubstr "privilege" i.toLower)))
  let a4 := DeploymentProgressTracker.emit_security_check a3 sink
    "Secret exposure check"
    (!(inp.scan_issues.any (fun i => containsSubstr "secret" i.toLower)))
  DeploymentProgressTracker.complete_security_scan a4 sink
    inp.scan_issues.length

/-- Warning events for an insecure scan (first three issues). -/
def scanWarnings (inp : DeployInputs) (acc : EmitAcc) (sink : Sink) : EmitAcc :=
  if inp.scan_secure = false then
    (inp.scan_issues.take 3).foldl
      (fun a issue =>
        DeploymentProgressTracker.emit_warning a sink ("Security issue: " ++ issue))
      acc
  else acc

/-- `_handle_deploy_to_cloudrun`.  Wall-clock reads are abstracted to the
run start `t0` (stage timestamps) and completion time `tEnd`.  Note that
`record_stage('build', 'success', ...)` runs before the build success
check, and that no `record_error` happens on a build failure.  After a
successful build the handler emits the build-completion, deployment-start
and configuration events and then calls `deploy_to_cloudrun` with a
`user_id` keyword argument that the function does not accept: the call
raises `TypeError` before the coroutine runs, the outer `except` marks the
run `failed` and returns the generic error response, and
`record_stage('deploy', ...)`, the deploy-failure return and the success
return are all unreachable. -/
def runDeploy (inp : DeployInputs) (mon0 : MonitoringService) (sink : Sink)
    (has_callback : Bool) (deployment_id : String) (t0 tEnd : ℚ) :
    DeployResult :=
  let ts0 : TrackerState :=
    { deployment_id := deployment_id, service_name := inp.service_name,
      has_callback := has_callback, current_progress := 0 }
  let acc0 : EmitAcc := (ts0, [], [])
  let mon1 := mon0.start_deployment deployment_id inp.service_name t0
  if inp.name_valid = false then
    { mon := mon1.complete_deployment deployment_id "failed" tEnd,
      tracker := ts0, events := [], warnings := [],
      response_type := "error", deployment_url := none,
      deploy_attempted := false }
  else
    let service_name := inp.sanitized_name
    let mon3 := monValidated inp mon0 deployment_id t0
    if inp.dockerfile_valid = false then
      { mon := mon3.complete_deployment deployment_id "failed" tEnd,
        tracker := ts0, events := [], warnings := [],
        response_type := "error", deployment_url := none,
        deploy_attempted := false }
    else
      let a5 := scanEvents inp acc0 sink
      let mon4 := monScanned inp mon3 deployment_id
      let a6 := scanWarnings inp a5 sink
      let image_tag := "gcr.io/servergem-platform/" ++ service_name ++ ":latest"
      let a7 := DeploymentProgressTracker.start_container_build a6 sink image_tag
      let a8 := forwardBuildEvents a7 sink
        (buildImageProgress inp.build_lines inp.build_success)
      let mon5 := mon4.record_stage deployment_id "build" "success"
        inp.build_duration t0
      if inp.build_success = false then
        let a9 := DeploymentProgressTracker.emit_error a8 sink
          "container_build" inp.build_error
        { mon := mon5.complete_deployment deployment_id "failed" tEnd,
          tracker := a9.1, events := a9.2.1, warnings := a9.2.2,
          response_type := "error", deployment_url := none,
          deploy_attempted := false }
      else
        let a9 := DeploymentProgressTracker.complete_container_build a8 sink
          ("sha256:" ++ deployment_id.take 20)
        let a10 := DeploymentProgressTracker.start_cloud_deployment a9 sink
          service_name "us-central1"
        let a11 := DeploymentProgressTracker.emit_deployment_config a10 sink
          inp.cpu inp.memory inp.concurrency
        { mon := mon5.complete_deployment deployment_id "failed" tEnd,
          tracker := a11.1, events := a11.2.1, warnings := a11.2.2,
          response_type := "error", deployment_url := none,
          deploy_attempted := true }

/-- Claim C8: `emit` never raises — with a sink that raises on every call it
still returns normally, updating the tracker state, delivering no event and
logging one local warning; and the whole pipeline run reaches the same
monitoring state (terminal status, stage results, aggregates) and the same
response with any two sinks, so no emission failure is visible to the
caller. -/
theorem claim_C8_sink_failure (ts : TrackerState) (sinkF : Sink)
    (m msg : String) (stg : Option String) (pr : Option ℕ)
    (hfail : ∀ ev, sinkF ev = Except.error m)
    (hcb : ts.has_callback = true)
    (inp : DeployInputs) (mon : MonitoringService) (sink2 : Sink)
    (hc : Bool) (id : String) (t0 tEnd : ℚ) :
    (emit ts sinkF msg stg pr
      = ((match pr with
          | some p => { ts with current_progress := p }
          | none => ts), [],
         ["[DeploymentProgress] Warning: Could not emit progress: " ++ m])) ∧
    ((runDeploy inp mon sinkF hc id t0 tEnd).mon
        = (runDeploy inp mon sink2 hc id t0 tEnd).mon) ∧
    ((runDeploy inp mon sinkF hc id t0 tEnd).response_type
        = (runDeploy inp mon sink2 hc id t0 tEnd).response_type) ∧
    ((runDeploy inp mon sinkF hc id t0 tEnd).deployment_url
        = (runDeploy inp mon sink2 hc id t0 tEnd).deployment_url) ∧
    ((runDeploy inp mon sinkF hc id t0 tEnd).deploy_attempted
        = (runDeploy inp mon sink2 hc id t0 tEnd).deploy_attempted) := by
  refine ⟨?_, ?_⟩
  · simp [emit, hcb, hfail]
  · simp only [runDeploy]
    split_ifs <;> exact ⟨rfl, rfl, rfl, rfl⟩

/-! ## Helper lemmas for tracking a run through the pipeline -/

theorem start_get (s : MonitoringService) (id nm : String) (t : ℚ) :
    dictGet (s.start_deployment id nm t).deployments id
      = some { deployment_id := id, service_name := nm, start_time := t,
               end_time := none, status := "in_progress", stages := [],
               errors := [] } := by
  simp [MonitoringService.start_deployment, dictGet_dictSet_self]

theorem record_stage_get (s : MonitoringService) (id stage status : String)
    (dur now : ℚ) (m : DeploymentMetrics)
    (hm : dictGet s.deployments id = some m) :
    dictGet (s.record_stage id stage status dur now).deployments id
      = some (m.record_stage stage status dur now none) := by
  simp [MonitoringService.record_stage, hm, dictGet_dictSet_self]

theorem record_error_get (s : MonitoringService) (id err : String)
    (m : DeploymentMetrics) (hm : dictGet s.deployments id = some m) :
    dictGet (s.record_error id err).deployments id
      = some { m with errors := m.errors ++ [err] } := by
  simp [MonitoringService.record_error, hm, dictGet_dictSet_self]

theorem complete_get (s : MonitoringService) (id st : String) (now : ℚ)
    (m : DeploymentMetrics) (hm : dictGet s.deployments id = some m) :
    dictGet (s.complete_deployment id st now).deployments id
      = some (m.complete st now) := by
  simp [MonitoringService.complete_deployment, hm, dictGet_dictSet_self]

theorem record_error_fold_get (l : List String) :
    ∀ (s : MonitoringService) (id : String) (f : String → String)
      (m : DeploymentMetrics), dictGet s.deployments id = some m →
    dictGet ((l.foldl (fun s issue => s.record_error id (f issue)) s)).deployments id
      = some { m with errors := m.errors ++ l.map f } := by
  induction l with
  | nil => intro s id f m hm; simpa using hm
  | cons x l ih =>
    intro s id f m hm
    have h1 := record_error_get s id (f x) m hm
    have h2 := ih (s.record_error id (f x)) id f _ h1
    simpa using h2

/-- `complete_deployment` changes only the chosen run's record and the
aggregates; the failure counter moves by exactly one on a failed
completion. -/
theorem complete_fail_count (s : MonitoringService) (id : String) (now : ℚ)
    (m : DeploymentMetrics) (hm : dictGet s.deployments id = some m) :
    (s.complete_deployment id "failed" now).metrics.failed_deployments
      = s.metrics.failed_deployments + 1 := by
  simp [MonitoringService.complete_deployment, hm]

theorem complete_success_count (s : MonitoringService) (id : String) (now : ℚ)
    (m : DeploymentMetrics) (hm : dictGet s.deployments id = some m) :
    (s.complete_deployment id "success" now).metrics.successful_deployments
      = s.metrics.successful_deployments + 1 ∧
    (s.complete_deployment id "success" now).metrics.failed_deployments
      = s.metrics.failed_deployments := by
  simp [MonitoringService.complete_deployment, hm]

theorem record_stage_metrics (s : MonitoringService)
    (id stage status : String) (dur now : ℚ) :
    (s.record_stage id stage status dur now).metrics = s.metrics := by
  cases hd : dictGet s.deployments id <;>
    simp [MonitoringService.record_stage, hd]

theorem record_error_metrics (s : MonitoringService) (id err : String) :
    (s.record_error id err).metrics = s.metrics := by
  cases hd : dictGet s.deployments id <;>
    simp [MonitoringService.record_error, hd]

theorem record_error_fold_metrics (l : List String) :
    ∀ (s : MonitoringService) (id : String) (f : String → String),
    ((l.foldl (fun s issue => s.record_error id (f issue)) s)).metrics
      = s.metrics := by
  induction l with
  | nil => intro s id f; rfl
  | cons x l ih =>
    intro s id f
    rw [List.foldl_cons, ih, record_error_metrics]

/-- The tracker state after an `emit` with the given `progress` argument. -/
def updTracker (ts : TrackerState) (pr : Option ℕ) : TrackerState :=
  match pr with
  | some p => { ts with current_progress := p }
  | none => ts

/-- The progress an event emitted in state `ts` carries. -/
def updProgress (ts : TrackerState) (pr : Option ℕ) : ℕ :=
  (updTracker ts pr).current_progress

/-- The event built by `emit` in state `ts`. -/
def mkEvent (ts : TrackerState) (msg : String) (stg : Option String)
    (pr : Option ℕ) : ProgressEvent :=
  { content := msg, stage := stg, progress := updProgress ts pr,
    deployment_id := ts.deployment_id, service_name := ts.service_name }

/-- One `emit` through a working sink: the event is delivered and carries the
updated progress. -/
theorem stepEmit_ok (acc : EmitAcc) (sink : Sink) (msg : String)
    (stg : Option String) (pr : Option ℕ)
    (hsink : ∀ ev, sink ev = Except.ok ())
    (hcb : acc.1.has_callback = true) :
    stepEmit acc sink msg stg pr
      = (updTracker acc.1 pr, acc.2.1 ++ [mkEvent acc.1 msg stg pr], acc.2.2) := by
  cases pr <;>
    simp [stepEmit, emit, hsink, hcb, updTracker, updProgress, mkEvent]

/-- `stepEmit` never changes `has_callback`. -/
theorem stepEmit_cb (acc : EmitAcc) (sink : Sink) (msg : String)
    (stg : Option String) (pr : Option ℕ) :
    (stepEmit acc sink msg stg pr).1.has_callback = acc.1.has_callback := by
  by_cases hcb : acc.1.has_callback = false <;>
    cases pr <;> simp [stepEmit, emit, hcb]

/-- `stepEmit` only appends to the delivered events. -/
theorem stepEmit_events (acc : EmitAcc) (sink : Sink) (msg : String)
    (stg : Option String) (pr : Option ℕ) :
    ∃ evs, (stepEmit acc sink msg stg pr).2.1 = acc.2.1 ++ evs :=
  ⟨(emit acc.1 sink msg stg pr).2.1, rfl⟩

theorem forwardBuildEvents_cb (ps : List ℕ) :
    ∀ (acc : EmitAcc) (sink : Sink),
    (forwardBuildEvents acc sink ps).1.has_callback = acc.1.has_callback := by
  induction ps with
  | nil => intro acc sink; rfl
  | cons p ps ih =>
    intro acc sink
    show (forwardBuildEvents
      (DeploymentProgressTracker.emit_build_progress acc sink p) sink ps).1.has_callback = _
    rw [ih]
    exact stepEmit_cb acc sink _ _ _

theorem emit_security_check_cb (acc : EmitAcc) (sink : Sink) (n : String)
    (b : Bool) :
    (DeploymentProgressTracker.emit_security_check acc sink n b).1.has_callback
      = acc.1.has_callback := stepEmit_cb _ _ _ _ _

theorem start_security_scan_cb (acc : EmitAcc) (sink : Sink) :
    (DeploymentProgressTracker.start_security_scan acc sink).1.has_callback
      = acc.1.has_callback := stepEmit_cb _ _ _ _ _

theorem complete_security_scan_cb (acc : EmitAcc) (sink : Sink) (n : ℕ) :
    (DeploymentProgressTracker.complete_security_scan acc sink n).1.has_callback
      = acc.1.has_callback := by
  by_cases h : n = 0 <;>
    simp [DeploymentProgressTracker.complete_security_scan, h, stepEmit_cb]

theorem start_container_build_cb (acc : EmitAcc) (sink : Sink) (tag : String) :
    (DeploymentProgressTracker.start_container_build acc sink tag).1.has_callback
      = acc.1.has_callback := stepEmit_cb _ _ _ _ _

theorem complete_container_build_cb (acc : EmitAcc) (sink : Sink)
    (dg : String) :
    (DeploymentProgressTracker.complete_container_build acc sink dg).1.has_callback
      = acc.1.has_callback := by
  show (stepEmit (stepEmit acc sink _ _ _) sink _ _ _).1.has_callback = _
  rw [stepEmit_cb, stepEmit_cb]

theorem start_cloud_deployment_cb (acc : EmitAcc) (sink : Sink)
    (nm rg : String) :
    (DeploymentProgressTracker.start_cloud_deployment acc sink nm rg).1.has_callback
      = acc.1.has_callback := by
  show (stepEmit (stepEmit acc sink _ _ _) sink _ _ _).1.has_callback = _
  rw [stepEmit_cb, stepEmit_cb]

theorem emit_deployment_config_cb (acc : EmitAcc) (sink : Sink)
    (c mem : String) (n : ℕ) :
    (DeploymentProgressTracker.emit_deployment_config acc sink c mem n).1.has_callback
      = acc.1.has_callback := by
  show (stepEmit (stepEmit acc sink _ _ _) sink _ _ _).1.has_callback = _
  rw [stepEmit_cb, stepEmit_cb]

theorem emit_warning_fold_cb (l : List String) :
    ∀ (acc : EmitAcc) (sink : Sink) (f : String → String),
    ((l.foldl (fun a issue =>
        DeploymentProgressTracker.emit_warning a sink (f issue)) acc)).1.has_callback
      = acc.1.has_callback := by
  induction l with
  | nil => intro acc sink f; rfl
  | cons x l ih =>
    intro acc sink f
    rw [List.foldl_cons, ih]
    exact stepEmit_cb _ _ _ _ _

/-- The three closing emits of `complete_cloud_deployment` leave the event
stream ending in a 100% event. -/
theorem complete_cloud_last (acc : EmitAcc) (sink : Sink) (url : String)
    (hsink : ∀ ev, sink ev = Except.ok ())
    (hcb : acc.1.has_callback = true) :
    (((DeploymentProgressTracker.complete_cloud_deployment acc sink url).2.1).map
        (fun e => e.progress)).getLast? = some 100 := by
  show ((stepEmit (stepEmit (stepEmit acc sink _ _ _) sink _ _ _)
      sink _ _ _).2.1.map (fun e => e.progress)).getLast? = some 100
  rw [stepEmit_ok _ _ _ _ _ hsink hcb]
  rw [stepEmit_ok _ _ _ _ _ hsink (by simp [stepEmit_cb, updTracker, hcb])]
  rw [stepEmit_ok _ _ _ _ _ hsink (by simp [stepEmit_cb, updTracker, hcb])]
  simp [mkEvent, updProgress, updTracker, List.getLast?_append]

theorem monValidated_get (inp : DeployInputs) (mon0 : MonitoringService)
    (id : String) (t0 : ℚ) :
    ∃ errs, dictGet (monValidated inp mon0 id t0).deployments id
      = some { deployment_id := id, service_name := inp.service_name,
               start_time := t0, end_time := none, status := "in_progress",
               stages := [("validation",
                 { status := "success", duration := 1 / 2, timestamp := t0,
                   metadata := [] })],
               errors := errs } := by
  simp only [monValidated]
  by_cases hc : ((match inp.env_vars with
      | none => false
      | some l => !l.isEmpty) && !inp.env_issues.isEmpty) = true
  · rw [if_pos hc]
    exact ⟨_, record_stage_get _ id "validation" "success" (1 / 2) t0 _
      (record_error_get _ id _ _ (start_get mon0 id inp.service_name t0))⟩
  · rw [if_neg hc]
    exact ⟨[], record_stage_get _ id "validation" "success" (1 / 2) t0 _
      (start_get mon0 id inp.service_name t0)⟩

theorem monScanned_get (inp : DeployInputs) (mon : MonitoringService)
    (id : String) (m : DeploymentMetrics)
    (hm : dictGet mon.deployments id = some m) :
    ∃ errs, dictGet (monScanned inp mon id).deployments id
      = some { m with errors := errs } := by
  unfold monScanned
  by_cases hs : inp.scan_secure = false
  · rw [if_pos hs]
    exact ⟨_, record_error_fold_get _ _ _ _ _ hm⟩
  · rw [if_neg hs]
    exact ⟨m.errors, hm⟩

theorem monValidated_metrics (inp : DeployInputs) (mon0 : MonitoringService)
    (id : String) (t0 : ℚ) :
    (monValidated inp mon0 id t0).metrics
      = { mon0.metrics with
          total_deployments := mon0.metrics.total_deployments + 1 } := by
  simp only [monValidated]
  rw [record_stage_metrics]
  by_cases hc : ((match inp.env_vars with
      | none => false
      | some l => !l.isEmpty) && !inp.env_issues.isEmpty) = true
  · rw [if_pos hc, record_error_metrics]
    rfl
  · rw [if_neg hc]
    rfl

theorem monScanned_metrics (inp : DeployInputs) (mon : MonitoringService)
    (id : String) :
    (monScanned inp mon id).metrics = mon.metrics := by
  unfold monScanned
  by_cases hs : inp.scan_secure = false
  · rw [if_pos hs]
    exact record_error_fold_metrics _ _ _ _
  · rw [if_neg hs]

theorem scanEvents_cb (inp : DeployInputs) (acc : EmitAcc) (sink : Sink) :
    (scanEvents inp acc sink).1.has_callback = acc.1.has_callback := by
  simp only [scanEvents]
  rw [complete_security_scan_cb, emit_security_check_cb,
    emit_security_check_cb, emit_security_check_cb, start_security_scan_cb]

theorem scanWarnings_cb (inp : DeployInputs) (acc : EmitAcc) (sink : Sink) :
    (scanWarnings inp acc sink).1.has_callback = acc.1.has_callback := by
  unfold scanWarnings
  by_cases hs : inp.scan_secure = false
  · rw [if_pos hs, emit_warning_fold_cb]
  · rw [if_neg hs]

/-- The two closing emits of `emit_deployment_config` leave the event
stream ending in an event that carries progress 90. -/
theorem config_tail_last (acc : EmitAcc) (sink : Sink) (cpu memory : String)
    (conc : ℕ) (hsink : ∀ ev, sink ev = Except.ok ())
    (hcb : acc.1.has_callback = true) :
    (((DeploymentProgressTracker.emit_deployment_config acc sink cpu memory
        conc).2.1).map (fun e => e.progress)).getLast? = some 90 := by
  show ((stepEmit (stepEmit acc sink _ _ _) sink _ _ _).2.1.map
      (fun e => e.progress)).getLast? = some 90
  rw [stepEmit_ok _ _ _ _ _ hsink hcb]
  rw [stepEmit_ok _ _ _ _ _ hsink (by simp [stepEmit_cb, updTracker, hcb])]
  simp [mkEvent, updProgress, updTracker, List.getLast?_append]

/-- Claim C1 (code bug): the spec's all-stages-succeed scenario is
unreachable — the handler passes `deploy_to_cloudrun` a `user_id` keyword
argument it does not accept, so the deploy call raises `TypeError` and the
outer handler marks the run failed.  Even when name validation, the
Dockerfile check and the image build all succeed, the recorded status is
`failed`, only the two stage entries `validation` and `build` exist (never
six), the response is the generic error with no deployment URL, and the
last emitted progress percentage is 90, never 100. -/
theorem claim_C1_deploy_unreachable (inp : DeployInputs)
    (mon : MonitoringService) (sink : Sink) (did : String) (t0 tEnd : ℚ)
    (hname : inp.name_valid = true) (hdf : inp.dockerfile_valid = true)
    (hbuild : inp.build_success = true)
    (hsink : ∀ ev, sink ev = Except.ok ()) :
    ∃ m, (runDeploy inp mon sink true did t0 tEnd).mon.get_deployment_metrics
        did = some m
      ∧ m.status = "failed"
      ∧ m.stages.map Prod.fst = ["validation", "build"]
      ∧ (runDeploy inp mon sink true did t0 tEnd).response_type = "error"
      ∧ (runDeploy inp mon sink true did t0 tEnd).deployment_url = none
      ∧ ((runDeploy inp mon sink true did t0 tEnd).events.map
          (fun e => e.progress)).getLast? = some 90 := by
  simp only [runDeploy]
  rw [if_neg (show ¬ inp.name_valid = false by simp [hname])]
  rw [if_neg (show ¬ inp.dockerfile_valid = false by simp [hdf])]
  rw [if_neg (show ¬ inp.build_success = false by simp [hbuild])]
  obtain ⟨e1, h1⟩ := monValidated_get inp mon did t0
  obtain ⟨e2, h2⟩ := monScanned_get inp (monValidated inp mon did t0) did _ h1
  have h5 := record_stage_get _ did "build" "success" inp.build_duration t0 _ h2
  have h7 := complete_get _ did "failed" tEnd _ h5
  refine ⟨_, h7, rfl, ?_, rfl, rfl, ?_⟩
  · simp [DeploymentMetrics.record_stage, DeploymentMetrics.complete, dictSet]
  · refine config_tail_last _ sink inp.cpu inp.memory inp.concurrency hsink ?_
    rw [start_cloud_deployment_cb, complete_container_build_cb,
      forwardBuildEvents_cb, start_container_build_cb, scanWarnings_cb,
      scanEvents_cb]

/-- A sink that always succeeds. -/
def okSink : Sink := fun _ => Except.ok ()

/-- A sink that raises on every call (disconnected client). -/
def failSink : Sink := fun _ => Except.error "disconnected"

/-- A fully successful deployment request (the §8 scenario). -/
def sampleInputs : DeployInputs :=
  { service_name := "svc", env_vars := none, name_valid := true,
    sanitized_name := "svc", env_issues := [], dockerfile_valid := true,
    scan_secure := true, scan_issues := [], cpu := "1", memory := "512Mi",
    concurrency := 80, build_success := true,
    build_lines := ["Step 1/2 : FROM python", "Pushing image", "DONE"],
    build_error := "", build_image_tag := "registry/svc:latest",
    build_duration := 30, deploy_success := true, deploy_error := "",
    deploy_url := "https://svc.example", deploy_duration := 20 }

theorem claim_C1_witness :
    ∃ m, (runDeploy sampleInputs initMonitoring okSink true "deploy-1" 0
          60).mon.get_deployment_metrics "deploy-1" = some m
      ∧ m.status = "failed"
      ∧ m.stages.map Prod.fst = ["validation", "build"]
      ∧ (runDeploy sampleInputs initMonitoring okSink true "deploy-1" 0
          60).response_type = "error"
      ∧ (runDeploy sampleInputs initMonitoring okSink true "deploy-1" 0
          60).deployment_url = none
      ∧ ((runDeploy sampleInputs initMonitoring okSink true "deploy-1" 0
          60).events.map (fun e => e.progress)).getLast? = some 90 :=
  claim_C1_deploy_unreachable sampleInputs initMonitoring okSink "deploy-1" 0 60
    rfl rfl rfl (fun _ => rfl)

/-- Claim C1 counterexample: in the spec's scenario (valid name and
Dockerfile, clean scan, successful build) the run ends `failed` with the
two stage entries `validation` and `build` and last progress 90 — not
`success` with six stage entries and final progress 100. -/
theorem claim_C1_counterexample :
    ((runDeploy sampleInputs initMonitoring okSink true "deploy-1" 0
        60).mon.get_deployment_metrics "deploy-1").map
      (fun m => (m.status, m.stages.map Prod.fst))
      = some ("failed", ["validation", "build"]) ∧
    ((runDeploy sampleInputs initMonitoring okSink true "deploy-1" 0
        60).events.map (fun e => e.progress)).getLast? = some 90 ∧
    ("failed" ≠ "success" ∧ (2 : ℕ) ≠ 6 ∧ (90 : ℕ) ≠ 100) := by
  refine ⟨by decide, by decide, by decide⟩

theorem emit_error_last (acc : EmitAcc) (sink : Sink) (stg msg : String)
    (hsink : ∀ ev, sink ev = Except.ok ())
    (hcb : acc.1.has_callback = true) :
    ∃ ev, ((DeploymentProgressTracker.emit_error acc sink stg msg).2.1).getLast?
        = some ev
      ∧ ev.stage = some stg
      ∧ ev.content = "[ERROR] " ++ stg ++ ": " ++ msg := by
  unfold DeploymentProgressTracker.emit_error
  rw [stepEmit_ok _ _ _ _ _ hsink hcb]
  refine ⟨mkEvent acc.1 ("[ERROR] " ++ stg ++ ": " ++ msg) (some stg) none,
    ?_, rfl, rfl⟩
  simp [List.getLast?_append]

/-- Claim C4 (amended): when the image-build stage fails (with valid name
and Dockerfile, no env vars and a clean security scan) the run is marked
failed, the failure counter rises by exactly one, an error progress event
naming the `container_build` stage is the last event, the deploy backend is
never invoked and no deploy entry exists — but the handler does *not*
record the error via the metrics recorder: the run's error list stays
empty. -/
theorem claim_C4_build_failure (inp : DeployInputs) (mon : MonitoringService)
    (sink : Sink) (id : String) (t0 tEnd : ℚ)
    (hname : inp.name_valid = true) (hdf : inp.dockerfile_valid = true)
    (hbuild : inp.build_success = false)
    (henv : inp.env_vars = none) (hscan : inp.scan_secure = true)
    (hsink : ∀ ev, sink ev = Except.ok ()) :
    ∃ m, (runDeploy inp mon sink true id t0 tEnd).mon.get_deployment_metrics id
        = some m
      ∧ m.status = "failed"
      ∧ m.stages.map Prod.fst = ["validation", "build"]
      ∧ m.errors = []
      ∧ (runDeploy inp mon sink true id t0
          tEnd).mon.metrics.failed_deployments
          = mon.metrics.failed_deployments + 1
      ∧ (runDeploy inp mon sink true id t0 tEnd).deploy_attempted = false
      ∧ ∃ ev, (runDeploy inp mon sink true id t0 tEnd).events.getLast?
            = some ev
          ∧ ev.stage = some "container_build"
          ∧ ev.content = "[ERROR] " ++ "container_build" ++ ": " ++ inp.build_error := by
  simp only [runDeploy]
  rw [if_neg (show ¬ inp.name_valid = false by simp [hname])]
  rw [if_neg (show ¬ inp.dockerfile_valid = false by simp [hdf])]
  rw [if_pos hbuild]
  have h1 : dictGet (monValidated inp mon id t0).deployments id
      = some { deployment_id := id, service_name := inp.service_name,
               start_time := t0, end_time := none, status := "in_progress",
               stages := [("validation",
                 { status := "success", duration := 1 / 2, timestamp := t0,
                   metadata := [] })],
               errors := [] } := by
    simp only [monValidated, henv, Bool.false_and]
    rw [if_neg (by simp)]
    exact record_stage_get _ id "validation" "success" (1 / 2) t0 _
      (start_get mon id inp.service_name t0)
  have h2 : monScanned inp (monValidated inp mon id t0) id
      = monValidated inp mon id t0 := by
    unfold monScanned
    rw [if_neg (by simp [hscan])]
  have h5 := record_stage_get (monScanned inp (monValidated inp mon id t0) id)
    id "build" "success" inp.build_duration t0 _ (by rw [h2]; exact h1)
  have h7 := complete_get _ id "failed" tEnd _ h5
  refine ⟨_, h7, rfl, ?_, rfl, ?_, rfl, ?_⟩
  · simp [DeploymentMetrics.record_stage, DeploymentMetrics.complete, dictSet]
  · rw [complete_fail_count _ id tEnd _ h5, record_stage_metrics,
      monScanned_metrics, monValidated_metrics]
  · exact emit_error_last _ sink _ _ hsink
      (by rw [forwardBuildEvents_cb, start_container_build_cb,
        scanWarnings_cb, scanEvents_cb])

/-- The successful-scan inputs with a failing image build. -/
def c4Inputs : DeployInputs :=
  { sampleInputs with build_success := false, build_error := "Cloud Build failed" }

/-- Claim C4 counterexample: on a build failure the handler never calls the
metrics recorder's `record_error` — the failed run's error list is empty
(and, incidentally, the build stage entry even says `success`). -/
theorem claim_C4_counterexample :
    ((runDeploy c4Inputs initMonitoring okSink true "deploy-1" 0
        60).mon.get_deployment_metrics "deploy-1").map
      (fun m => (m.status, m.errors, m.stages.map Prod.fst))
      = some ("failed", [], ["validation", "build"]) ∧
    ((runDeploy c4Inputs initMonitoring okSink true "deploy-1" 0
        60).mon.get_deployment_metrics "deploy-1").map
      (fun m => dictGet m.stages "build")
      = some (some { status := "success", duration := 30, timestamp := 0,
                     metadata := [] }) := by
  constructor
  · decide
  · decide

theorem claim_C4_witness :
    ∃ m, (runDeploy c4Inputs initMonitoring okSink true "deploy-1" 0
          60).mon.get_deployment_metrics "deploy-1" = some m
      ∧ m.status = "failed"
      ∧ m.stages.map Prod.fst = ["validation", "build"]
      ∧ m.errors = []
      ∧ (runDeploy c4Inputs initMonitoring okSink true "deploy-1" 0
          60).mon.metrics.failed_deployments
          = initMonitoring.metrics.failed_deployments + 1
      ∧ (runDeploy c4Inputs initMonitoring okSink true "deploy-1" 0
          60).deploy_attempted = false
      ∧ ∃ ev, (runDeploy c4Inputs initMonitoring okSink true "deploy-1" 0
            60).events.getLast? = some ev
          ∧ ev.stage = some "container_build"
          ∧ ev.content = "[ERROR] " ++ "container_build" ++ ": "
              ++ c4Inputs.build_error :=
  claim_C4_build_failure c4Inputs initMonitoring okSink "deploy-1" 0 60
    rfl rfl rfl rfl rfl (fun _ => rfl)

/-- An example tracker state with a live callback. -/
def c8Tracker : TrackerState :=
  { deployment_id := "d", service_name := "svc", has_callback := true,
    current_progress := 0 }

theorem claim_C8_witness :
    (emit c8Tracker failSink "hello" none (some 5)
      = ({ c8Tracker with current_progress := 5 }, [],
         ["[DeploymentProgress] Warning: Could not emit progress: disconnected"])) ∧
    ((runDeploy sampleInputs initMonitoring failSink true "deploy-1" 0 60).mon
      = (runDeploy sampleInputs initMonitoring okSink true "deploy-1" 0 60).mon) := by
  have h := claim_C8_sink_failure c8Tracker failSink "disconnected" "hello"
    none (some 5) (fun _ => rfl) rfl
    sampleInputs initMonitoring okSink true "deploy-1" 0 60
  exact ⟨h.1, h.2.1⟩

/-! ## Claim C2: progress monotonicity -/

/-- Success-path inputs whose build output has a `Fetching` line after the
`DONE` marker. -/
def c2Inputs : DeployInputs :=
  { sampleInputs with build_lines := ["DONE", "Fetching layers"] }

/-- Executable non-decreasing check on a progress sequence. -/
def nonDecreasing : List ℕ → Bool
  | [] => true
  | [_] => true
  | a :: b :: rest => Nat.ble a b && nonDecreasing (b :: rest)

theorem nonDecreasing_iff_chain : ∀ (l : List ℕ),
    nonDecreasing l = true ↔ l.Chain' (fun a b => a ≤ b) := by
  intro l
  induction l with
  | nil => simp [nonDecreasing]
  | cons a l ih =>
    cases l with
    | nil => simp [nonDecreasing]
    | cons b rest =>
      rw [List.chain'_cons, ← ih]
      simp [nonDecreasing, Nat.ble_eq]

/-- Claim C2 counterexample: a successful run whose raw build output
contains a fetch line after the completion marker emits a progress sequence
that decreases (… 79 → 69 …): the `min(progress + 2, 30)` clamp pulls the
translated progress back down. -/
theorem claim_C2_counterexample :
    ¬ (((runDeploy c2Inputs initMonitoring okSink true "deploy-1" 0
        60).events.map (fun e => e.progress)).Chain' (fun a b => a ≤ b)) := by
  intro h
  have hb := (nonDecreasing_iff_chain _).mpr h
  exact absurd hb (by decide)

/-- One emit spec: message, stage tag, progress argument. -/
abbrev EmitSpec := String × Option String × Option ℕ

/-- A sequence of `emit` calls. -/
def emitChain (sink : Sink) : EmitAcc → List EmitSpec → EmitAcc
  | acc, [] => acc
  | acc, s :: rest => emitChain sink (stepEmit acc sink s.1 s.2.1 s.2.2) rest

theorem emitChain_append (sink : Sink) (A B : List EmitSpec) :
    ∀ acc, emitChain sink (emitChain sink acc A) B
      = emitChain sink acc (A ++ B) := by
  induction A with
  | nil => intro acc; rfl
  | cons s A ih => intro acc; exact ih (stepEmit acc sink s.1 s.2.1 s.2.2)

/-- The progress values carried by a chain of emits starting from current
progress `cur`. -/
def chainProgress (cur : ℕ) : List (Option ℕ) → List ℕ
  | [] => []
  | p :: rest => p.getD cur :: chainProgress (p.getD cur) rest

/-- `{ts with current_progress := n}` as a function (statement helper). -/
def setProgress (ts : TrackerState) (n : ℕ) : TrackerState :=
  { ts with current_progress := n }

theorem emitChain_ok (specs : List EmitSpec) :
    ∀ (acc : EmitAcc) (sink : Sink), (∀ ev, sink ev = Except.ok ()) →
    acc.1.has_callback = true →
    ∃ evs, emitChain sink acc specs
        = (setProgress acc.1
            ((specs.map (fun s => s.2.2)).foldl (fun c p => p.getD c)
              acc.1.current_progress),
           acc.2.1 ++ evs, acc.2.2)
      ∧ evs.map (fun e => e.progress)
          = chainProgress acc.1.current_progress
              (specs.map (fun s => s.2.2)) := by
  induction specs with
  | nil =>
    intro acc sink _ _
    refine ⟨[], ?_, rfl⟩
    show acc = _
    simp [setProgress]
  | cons s specs ih =>
    intro acc sink hsink hcb
    show ∃ evs, emitChain sink (stepEmit acc sink s.1 s.2.1 s.2.2) specs = _ ∧ _
    rw [stepEmit_ok _ _ _ _ _ hsink hcb]
    obtain ⟨evs, heq, hmap⟩ := ih
      (updTracker acc.1 s.2.2, acc.2.1 ++ [mkEvent acc.1 s.1 s.2.1 s.2.2], acc.2.2)
      sink hsink (by cases h : s.2.2 <;> simp [updTracker, hcb])
    have hupd : updTracker acc.1 s.2.2
        = setProgress acc.1 (s.2.2.getD acc.1.current_progress) := by
      cases s.2.2 <;> simp [updTracker, setProgress]
    refine ⟨mkEvent acc.1 s.1 s.2.1 s.2.2 :: evs, ?_, ?_⟩
    · rw [heq]
      simp only [hupd, setProgress, List.map_cons, List.foldl_cons,
        List.append_assoc, List.singleton_append]
    · rw [List.map_cons, hmap, hupd]
      simp [mkEvent, updProgress, setProgress, chainProgress, updTracker]
      cases s.2.2 <;> simp [updTracker]

theorem chain_cons_chainProgress : ∀ (opts : List (Option ℕ)) (cur : ℕ),
    (cur :: chainProgress cur opts).Chain' (fun a b => a ≤ b)
      ↔ (cur :: opts.filterMap id).Chain' (fun a b => a ≤ b) := by
  intro opts
  induction opts with
  | nil => intro cur; exact Iff.rfl
  | cons p rest ih =>
    intro cur
    cases p with
    | some q =>
      rw [show chainProgress cur (some q :: rest) = q :: chainProgress q rest
        from rfl]
      rw [show (some q :: rest).filterMap id = q :: rest.filterMap id from by simp]
      rw [List.chain'_cons, List.chain'_cons]
      exact and_congr Iff.rfl (ih q)
    | none =>
      rw [show chainProgress cur (none :: rest) = cur :: chainProgress cur rest
        from rfl]
      rw [show (none :: rest).filterMap id = rest.filterMap id from by simp]
      rw [List.chain'_cons]
      constructor
      · intro h
        exact (ih cur).mp h.2
      · intro h
        exact ⟨le_refl _, (ih cur).mpr h⟩

theorem chainProgress_chain (p0 : ℕ) (rest : List (Option ℕ)) (cur : ℕ)
    (h : ((some p0 :: rest).filterMap id).Chain' (fun a b => a ≤ b)) :
    (chainProgress cur (some p0 :: rest)).Chain' (fun a b => a ≤ b) := by
  rw [show chainProgress cur (some p0 :: rest) = p0 :: chainProgress p0 rest
    from rfl]
  rw [chain_cons_chainProgress rest p0]
  simpa using h

/-- The marker class of a raw build line: 1 fetch/pull, 2 step, 3 push,
4 completion, 0 unrecognized — mirroring `updateBuildProgress`'s branch
order. -/
def lineClass (l : String) : ℕ :=
  if containsSubstr "Fetching" l || containsSubstr "Pulling" l then 1
  else if containsSubstr "Step" l then 2
  else if containsSubstr "Pushing" l then 3
  else if containsSubstr "DONE" l || containsSubstr "SUCCESS" l then 4
  else 0

/-- The clamp ceiling of each marker class. -/
def classCap (c : ℕ) : ℕ :=
  if c = 1 then 30 else if c = 2 then 70 else if c = 3 then 90 else 95

/-- The raw marker lines appear in phase order: the non-zero marker classes
form a non-decreasing sequence (fetch/pull before step before push before
completion markers). -/
def PhaseOrdered (lines : List String) : Prop :=
  ((lines.map lineClass).filter (fun c => c != 0)).Chain' (fun a b => a ≤ b)

theorem lineClass_le_four (l : String) : lineClass l ≤ 4 := by
  unfold lineClass
  split_ifs <;> omega

theorem classCap_mono (c c' : ℕ) (h1 : 1 ≤ c) (h : c ≤ c') :
    classCap c ≤ classCap c' := by
  unfold classCap
  split_ifs <;> omega

theorem classCap_ge (c : ℕ) : 30 ≤ classCap c := by
  unfold classCap
  split_ifs <;> omega

theorem updateBuildProgress_eq (p : ℕ) (l : String) :
    updateBuildProgress p l =
      if lineClass l = 1 then min (p + 2) 30
      else if lineClass l = 2 then min (p + 3) 70
      else if lineClass l = 3 then min (p + 5) 90
      else if lineClass l = 4 then 95
      else p := by
  unfold updateBuildProgress lineClass
  by_cases c1 : (containsSubstr "Fetching" l || containsSubstr "Pulling" l) = true
  · simp [c1]
  · by_cases c2 : containsSubstr "Step" l = true
    · simp [c1, c2]
    · by_cases c3 : containsSubstr "Pushing" l = true
      · simp [c1, c2, c3]
      · by_cases c4 : (containsSubstr "DONE" l || containsSubstr "SUCCESS" l) = true
        · simp [c1, c2, c3, c4]
        · simp [c1, c2, c3, c4]

theorem classCap_le (c : ℕ) : classCap c ≤ 95 := by
  unfold classCap
  split_ifs <;> omega

theorem update_step (p : ℕ) (l : String)
    (h : p ≤ classCap (lineClass l)) :
    p ≤ updateBuildProgress p l ∧
    updateBuildProgress p l ≤ classCap (lineClass l) ∧
    updateBuildProgress p l ≤ 95 := by
  rw [updateBuildProgress_eq]
  have h95 := classCap_le (lineClass l)
  rcases hlc : lineClass l with _ | _ | _ | _ | _ | n
  · rw [hlc] at h h95
    norm_num [classCap] at h h95 ⊢
    omega
  · rw [hlc] at h h95
    norm_num [classCap] at h h95 ⊢
    omega
  · rw [hlc] at h h95
    norm_num [classCap] at h h95 ⊢
    omega
  · rw [hlc] at h h95
    norm_num [classCap] at h h95 ⊢
    omega
  · rw [hlc] at h h95
    norm_num [classCap] at h h95 ⊢
    omega
  · have h4 := lineClass_le_four l
    rw [hlc] at h4
    omega

theorem buildStreamGo_chain : ∀ (lines : List String) (p : ℕ),
    ((lines.map lineClass).filter (fun c => c != 0)).Pairwise (fun a b => a ≤ b) →
    (∀ l ∈ lines, p ≤ classCap (lineClass l)) →
    p ≤ 95 →
    (p :: buildStreamGo p lines).Chain' (fun a b => a ≤ b) ∧
    (∀ q ∈ buildStreamGo p lines, q ≤ 95) := by
  intro lines
  induction lines with
  | nil =>
    intro p _ _ _
    exact ⟨List.chain'_singleton p, by simp [buildStreamGo]⟩
  | cons l ls ih =>
    intro p hpw hbound hp95
    by_cases hl : l = ""
    · rw [show buildStreamGo p (l :: ls) = buildStreamGo p ls
        from by simp [buildStreamGo, hl]]
      have hcl0 : lineClass l = 0 := by subst hl; decide
      apply ih p ?_ ?_ hp95
      · rw [show ((l :: ls).map lineClass).filter (fun c => c != 0)
            = ((ls.map lineClass).filter (fun c => c != 0))
          from by simp [hcl0]] at hpw
        exact hpw
      · intro l' hl'
        exact hbound l' (by simp [hl'])
    · rw [show buildStreamGo p (l :: ls)
          = updateBuildProgress p l :: buildStreamGo (updateBuildProgress p l) ls
        from by simp [buildStreamGo, hl]]
      have hcapl : p ≤ classCap (lineClass l) := hbound l (by simp)
      obtain ⟨h1, h2, h3⟩ := update_step p l hcapl
      have hbound' : ∀ l' ∈ ls,
          updateBuildProgress p l ≤ classCap (lineClass l') := by
        intro l' hl'
        by_cases hcl : lineClass l = 0
        · have hp'p : updateBuildProgress p l = p := by
            rw [updateBuildProgress_eq]
            simp [hcl]
          rw [hp'p]
          exact hbound l' (by simp [hl'])
        · by_cases hcl' : lineClass l' = 0
          · rw [hcl']
            calc updateBuildProgress p l ≤ 95 := h3
              _ ≤ classCap 0 := by norm_num [classCap]
          · have hfil : ((l :: ls).map lineClass).filter (fun c => c != 0)
                = lineClass l :: ((ls.map lineClass).filter (fun c => c != 0)) := by
              simp only [List.map_cons, List.filter_cons]
              rw [if_pos (by simpa using hcl)]
            rw [hfil] at hpw
            have hmem : lineClass l' ∈ (ls.map lineClass).filter (fun c => c != 0) := by
              rw [List.mem_filter]
              constructor
              · exact List.mem_map_of_mem lineClass hl'
              · simpa using hcl'
            have hle : lineClass l ≤ lineClass l' :=
              (List.pairwise_cons.mp hpw).1 _ hmem
            calc updateBuildProgress p l ≤ classCap (lineClass l) := h2
              _ ≤ classCap (lineClass l') := classCap_mono _ _ (by omega) hle
      have hpw' : ((ls.map lineClass).filter (fun c => c != 0)).Pairwise
          (fun a b => a ≤ b) := by
        by_cases hcl : lineClass l = 0
        · rw [show ((l :: ls).map lineClass).filter (fun c => c != 0)
              = ((ls.map lineClass).filter (fun c => c != 0))
            from by simp [hcl]] at hpw
          exact hpw
        · have hfil : ((l :: ls).map lineClass).filter (fun c => c != 0)
              = lineClass l :: ((ls.map lineClass).filter (fun c => c != 0)) := by
            simp only [List.map_cons, List.filter_cons]
            rw [if_pos (by simpa using hcl)]
          rw [hfil] at hpw
          exact (List.pairwise_cons.mp hpw).2
      obtain ⟨hch, hall⟩ := ih (updateBuildProgress p l) hpw' hbound' h3
      refine ⟨List.chain'_cons.mpr ⟨h1, hch⟩, ?_⟩
      intro q hq
      rcases List.mem_cons.mp hq with hq | hq
      · rw [hq]; exact h3
      · exact hall q hq

/-- The build-band translation `65 + int(p*0.15)` is monotone. -/
theorem mapBuildProgress_mono (p q : ℕ) (h : p ≤ q) :
    DeploymentProgressTracker.mapBuildProgress p
      ≤ DeploymentProgressTracker.mapBuildProgress q := by
  unfold DeploymentProgressTracker.mapBuildProgress
  omega

theorem mapBuildProgress_ge (p : ℕ) :
    65 ≤ DeploymentProgressTracker.mapBuildProgress p := by
  unfold DeploymentProgressTracker.mapBuildProgress
  omega

theorem mapBuildProgress_le_80 (p : ℕ) (h : p ≤ 100) :
    DeploymentProgressTracker.mapBuildProgress p ≤ 80 := by
  unfold DeploymentProgressTracker.mapBuildProgress
  omega

/-- With phase-ordered raw output, the whole raw progress sequence sent by
`build_image` (initial 10, per-line updates, final 100 on success) is
non-decreasing and bounded by 100. -/
theorem buildImageProgress_chain (lines : List String) (success : Bool)
    (hord : PhaseOrdered lines) :
    (buildImageProgress lines success).Chain' (fun a b => a ≤ b) ∧
    ∀ q ∈ buildImageProgress lines success, q ≤ 100 := by
  have hpw : ((lines.map lineClass).filter (fun c => c != 0)).Pairwise
      (fun a b => a ≤ b) := List.chain'_iff_pairwise.mp hord
  have hb : ∀ l ∈ lines, 10 ≤ classCap (lineClass l) :=
    fun l _ => le_trans (by norm_num) (classCap_ge (lineClass l))
  obtain ⟨hch, h95⟩ := buildStreamGo_chain lines 10 hpw hb (by norm_num)
  constructor
  · show ((10 : ℕ) :: (buildStreamGo 10 lines
        ++ (if success then [100] else []))).Chain' _
    rw [show (10 : ℕ) :: (buildStreamGo 10 lines
          ++ (if success then [100] else []))
        = (10 :: buildStreamGo 10 lines) ++ (if success then [100] else [])
      from rfl]
    rw [List.chain'_append]
    refine ⟨hch, ?_, ?_⟩
    · cases success <;> simp
    · intro x hx y hy
      cases success with
      | false => simp at hy
      | true =>
        simp at hy
        subst hy
        have hmem : x ∈ (10 : ℕ) :: buildStreamGo 10 lines :=
          List.mem_of_mem_getLast? hx
        rcases List.mem_cons.mp hmem with h | h
        · omega
        · have := h95 x h; omega
  · intro q hq
    rcases List.mem_cons.mp hq with h | h
    · omega
    · rcases List.mem_append.mp h with h | h
      · have := h95 q h; omega
      · cases success with
        | true => simp at h; omega
        | false => simp at h

/-- Core monotonicity of the emitted percentage sequence: the scan values
55/60, the build-start 65, the band-mapped raw build values and any tail
chain that starts at or above 80 concatenate into a non-decreasing list. -/
theorem c2_full_chain (lines : List String) (success : Bool) (tail : List ℕ)
    (hord : PhaseOrdered lines)
    (htail : ((80 : ℕ) :: tail).Chain' (fun a b => a ≤ b)) :
    ((55 : ℕ) :: 60 :: 65 ::
      ((buildImageProgress lines success).map
          DeploymentProgressTracker.mapBuildProgress ++ tail)).Chain'
      (fun a b => a ≤ b) := by
  obtain ⟨hch, hle⟩ := buildImageProgress_chain lines success hord
  have hmbc : ((buildImageProgress lines success).map
      DeploymentProgressTracker.mapBuildProgress).Chain' (fun a b => a ≤ b) := by
    rw [List.chain'_map]
    exact List.Chain'.imp (fun a b hab => mapBuildProgress_mono a b hab) hch
  have hbounds : ∀ q ∈ (buildImageProgress lines success).map
      DeploymentProgressTracker.mapBuildProgress, q ≤ 80 := by
    intro q hq
    obtain ⟨p, hp, hpq⟩ := List.mem_map.mp hq
    rw [← hpq]
    exact mapBuildProgress_le_80 p (hle p hp)
  have hhead : (buildImageProgress lines success).map
      DeploymentProgressTracker.mapBuildProgress
      = 66 :: ((buildStreamGo 10 lines ++ (if success then [100] else [])).map
          DeploymentProgressTracker.mapBuildProgress) := rfl
  rw [hhead] at hmbc hbounds ⊢
  rw [List.chain'_cons', List.chain'_cons', List.chain'_cons',
    List.chain'_append]
  refine ⟨?_, ?_, ?_, hmbc, htail.tail, ?_⟩
  · intro b hb
    simp at hb
    omega
  · intro b hb
    simp at hb
    omega
  · intro b hb
    simp at hb
    omega
  · intro x hx y hy
    have hxm := List.mem_of_mem_getLast? hx
    have hx80 := hbounds x hxm
    cases tail with
    | nil => simp at hy
    | cons t ts =>
      simp at hy
      have h80t : (80 : ℕ) ≤ t := (List.chain'_cons.mp htail).1
      omega

/-- The completion message of the security scan. -/
def scanDoneMsg (n : ℕ) : String :=
  if n = 0 then
    "[SecurityService] Security scan complete - No vulnerabilities found"
  else
    "[SecurityService] Security scan complete - " ++ toString n
      ++ " issues detected"

theorem complete_scan_eq (acc : EmitAcc) (sink : Sink) (n : ℕ) :
    DeploymentProgressTracker.complete_security_scan acc sink n
      = stepEmit acc sink (scanDoneMsg n) (some "security_scan") (some 60) := by
  unfold DeploymentProgressTracker.complete_security_scan scanDoneMsg
  split_ifs <;> rfl

/-- The emit specs of the security-scan phase. -/
def scanSpecs (inp : DeployInputs) : List EmitSpec :=
  [("[SecurityService] Starting security scan", some "security_scan", some 55),
   ("[SecurityService] " ++ (if inp.scan_secure then "✓" else "✗")
      ++ " " ++ "Base image validation", some "security_scan", none),
   ("[SecurityService] "
      ++ (if (!(inp.scan_issues.any (fun i => containsSubstr "privilege" i.toLower)))
          then "✓" else "✗")
      ++ " " ++ "Privilege escalation check", some "security_scan", none),
   ("[SecurityService] "
      ++ (if (!(inp.scan_issues.any (fun i => containsSubstr "secret" i.toLower)))
          then "✓" else "✗")
      ++ " " ++ "Secret exposure check", some "security_scan", none),
   (scanDoneMsg inp.scan_issues.length, some "security_scan", some 60)]

theorem scanEvents_chainEq (inp : DeployInputs) (acc : EmitAcc) (sink : Sink) :
    scanEvents inp acc sink = emitChain sink acc (scanSpecs inp) := by
  show DeploymentProgressTracker.complete_security_scan _ sink _ = _
  rw [complete_scan_eq]
  rfl

/-- The emit specs of the insecure-scan warning phase. -/
def warnSpecs (inp : DeployInputs) : List EmitSpec :=
  if inp.scan_secure = false then
    (inp.scan_issues.take 3).map
      (fun issue => ("[WARNING] " ++ ("Security issue: " ++ issue),
        (none : Option String), (none : Option ℕ)))
  else []

theorem warn_fold_chainEq (l : List String) : ∀ (acc : EmitAcc) (sink : Sink),
    l.foldl (fun a issue =>
        DeploymentProgressTracker.emit_warning a sink ("Security issue: " ++ issue)) acc
      = emitChain sink acc (l.map
          (fun issue => ("[WARNING] " ++ ("Security issue: " ++ issue),
            (none : Option String), (none : Option ℕ)))) := by
  induction l with
  | nil => intro acc sink; rfl
  | cons i l ih =>
    intro acc sink
    show l.foldl _ (DeploymentProgressTracker.emit_warning acc sink _) = _
    rw [ih]
    rfl

theorem scanWarnings_chainEq (inp : DeployInputs) (acc : EmitAcc) (sink : Sink) :
    scanWarnings inp acc sink = emitChain sink acc (warnSpecs inp) := by
  unfold scanWarnings warnSpecs
  split_ifs with h
  · exact warn_fold_chainEq _ acc sink
  · rfl

/-- The emit spec of `start_container_build`. -/
def bstartSpecs (image_tag : String) : List EmitSpec :=
  [("[DockerService] Building container image: " ++ image_tag,
    some "container_build", some 65)]

theorem start_container_build_chainEq (acc : EmitAcc) (sink : Sink)
    (tag : String) :
    DeploymentProgressTracker.start_container_build acc sink tag
      = emitChain sink acc (bstartSpecs tag) := rfl

/-- The emit specs of the forwarded raw build percentages. -/
def buildSpecs (ps : List ℕ) : List EmitSpec :=
  ps.map (fun p => ("[CloudBuild] Building " ++ toString p ++ "%",
    some "container_build",
    some (DeploymentProgressTracker.mapBuildProgress p)))

theorem forwardBuild_chainEq (ps : List ℕ) : ∀ (acc : EmitAcc) (sink : Sink),
    forwardBuildEvents acc sink ps = emitChain sink acc (buildSpecs ps) := by
  induction ps with
  | nil => intro acc sink; rfl
  | cons p ps ih =>
    intro acc sink
    show forwardBuildEvents
        (DeploymentProgressTracker.emit_build_progress acc sink p) sink ps = _
    rw [ih]
    rfl

/-- The emit specs of `complete_container_build`. -/
def ccbSpecs (image_digest : String) : List EmitSpec :=
  [("[CloudBuild] Container image built successfully",
    some "container_build", some 80),
   ("[CloudBuild] Image digest: " ++ (image_digest.take 20) ++ "...",
    some "container_build", none)]

theorem complete_container_build_chainEq (acc : EmitAcc) (sink : Sink)
    (d : String) :
    DeploymentProgressTracker.complete_container_build acc sink d
      = emitChain sink acc (ccbSpecs d) := rfl

/-- The emit specs of `start_cloud_deployment`. -/
def scdSpecs (service_name region : String) : List EmitSpec :=
  [("[GCloudService] Deploying to Cloud Run", some "cloud_deployment", some 85),
   ("[GCloudService] Service: " ++ service_name ++ " | Region: " ++ region,
    some "cloud_deployment", none)]

theorem start_cloud_deployment_chainEq (acc : EmitAcc) (sink : Sink)
    (nm region : String) :
    DeploymentProgressTracker.start_cloud_deployment acc sink nm region
      = emitChain sink acc (scdSpecs nm region) := rfl

/-- The emit specs of `emit_deployment_config`. -/
def cfgSpecs (cpu memory : String) (concurrency : ℕ) : List EmitSpec :=
  [("[GCloudService] Configuration: " ++ cpu ++ " CPU, " ++ memory ++ " RAM",
    some "cloud_deployment", some 90),
   ("[GCloudService] Concurrency: " ++ toString concurrency ++ " requests",
    some "cloud_deployment", none)]

theorem emit_deployment_config_chainEq (acc : EmitAcc) (sink : Sink)
    (cpu memory : String) (conc : ℕ) :
    DeploymentProgressTracker.emit_deployment_config acc sink cpu memory conc
      = emitChain sink acc (cfgSpecs cpu memory conc) := rfl

/-- The emit specs of `complete_cloud_deployment`. -/
def ccdSpecs (service_url : String) : List EmitSpec :=
  [("[GCloudService] Deployment successful", some "cloud_deployment", some 100),
   ("[GCloudService] Service URL: " ++ service_url,
    some "cloud_deployment", none),
   ("[GCloudService] Auto HTTPS enabled, auto-scaling configured",
    some "cloud_deployment", none)]

theorem complete_cloud_deployment_chainEq (acc : EmitAcc) (sink : Sink)
    (url : String) :
    DeploymentProgressTracker.complete_cloud_deployment acc sink url
      = emitChain sink acc (ccdSpecs url) := rfl

/-- The emit spec of `emit_error`. -/
def errSpecs (stage error_message : String) : List EmitSpec :=
  [("[ERROR] " ++ stage ++ ": " ++ error_message, some stage, none)]

theorem emit_error_chainEq (acc : EmitAcc) (sink : Sink) (stg msg : String) :
    DeploymentProgressTracker.emit_error acc sink stg msg
      = emitChain sink acc (errSpecs stg msg) := rfl

theorem scanSpecs_progress (inp : DeployInputs) :
    (scanSpecs inp).map (fun s => s.2.2)
      = [some 55, none, none, none, some 60] := rfl

theorem warnSpecs_filter (inp : DeployInputs) :
    ((warnSpecs inp).map (fun s => s.2.2)).filterMap id = [] := by
  unfold warnSpecs
  split_ifs
  · simp only [List.map_map, List.map_take]
    rw [List.filterMap_eq_nil_iff]
    intro a ha
    have := List.mem_of_mem_take ha
    obtain ⟨i, _, hi⟩ := List.mem_map.mp this
    rw [← hi]
    rfl
  · rfl

theorem buildSpecs_progress (ps : List ℕ) :
    (buildSpecs ps).map (fun s => s.2.2)
      = ps.map (fun p => some (DeploymentProgressTracker.mapBuildProgress p)) := by
  unfold buildSpecs
  rw [List.map_map]
  rfl

theorem buildOpts_filter (ps : List ℕ) :
    (ps.map (fun p => some (DeploymentProgressTracker.mapBuildProgress p))).filterMap
        id
      = ps.map DeploymentProgressTracker.mapBuildProgress := by
  simp
  exact List.filterMap_eq_map_iff_forall_eq_some.mpr fun x _ => rfl

/-- A chain of emits through a working sink on a live tracker delivers
events whose progress values are `chainProgress` of the specs' progress
arguments; monotonicity of the latter gives monotonicity of the former. -/
theorem emitChain_progress (specs : List EmitSpec) (ts : TrackerState)
    (sink : Sink) (hsink : ∀ ev, sink ev = Except.ok ())
    (hcb : ts.has_callback = true)
    (h : (chainProgress ts.current_progress
        (specs.map (fun s => s.2.2))).Chain' (fun a b => a ≤ b)) :
    (((emitChain sink (ts, [], []) specs).2.1).map
        (fun e => e.progress)).Chain' (fun a b => a ≤ b) := by
  obtain ⟨evs, heq, hmap⟩ := emitChain_ok specs (ts, [], []) sink hsink hcb
  rw [heq]
  show ((([] : List ProgressEvent) ++ evs).map (fun e => e.progress)).Chain' _
  rw [List.nil_append, hmap]
  exact h

/-- Claim C2 (amended): whenever the recognized raw build-output markers
appear in phase order (fetch/pull lines, then step lines, then push lines,
then completion markers) and the client sink accepts every event, the
progress percentages carried by the delivered events form a non-decreasing
sequence over the whole run, in every branch of the pipeline; with
out-of-order markers the translation's min-clamps can pull the emitted
progress back down. -/
theorem claim_C2_monotone (inp : DeployInputs) (mon : MonitoringService)
    (sink : Sink) (did : String) (t0 tEnd : ℚ)
    (hsink : ∀ ev, sink ev = Except.ok ())
    (hord : PhaseOrdered inp.build_lines) :
    ((runDeploy inp mon sink true did t0 tEnd).events.map
        (fun e => e.progress)).Chain' (fun a b => a ≤ b) := by
  simp only [runDeploy]
  split_ifs with h1 h2 h3
  · simp
  · simp
  · dsimp only
    rw [scanEvents_chainEq, scanWarnings_chainEq, start_container_build_chainEq,
      forwardBuild_chainEq, emit_error_chainEq]
    rw [emitChain_append, emitChain_append, emitChain_append, emitChain_append]
    apply emitChain_progress _ _ _ hsink rfl
    simp only [List.map_append, scanSpecs_progress, buildSpecs_progress,
      bstartSpecs, errSpecs, List.map_cons, List.map_nil, List.cons_append,
      List.nil_append]
    apply chainProgress_chain
    simp only [List.filterMap_cons, id_eq, List.filterMap_append,
      warnSpecs_filter, buildOpts_filter, List.filterMap_nil,
      List.nil_append, List.append_nil]
    simpa using c2_full_chain inp.build_lines inp.build_success [] hord
      ((nonDecreasing_iff_chain _).mp (by decide))
  · dsimp only
    rw [scanEvents_chainEq, scanWarnings_chainEq, start_container_build_chainEq,
      forwardBuild_chainEq, complete_container_build_chainEq,
      start_cloud_deployment_chainEq, emit_deployment_config_chainEq]
    rw [emitChain_append, emitChain_append, emitChain_append, emitChain_append,
      emitChain_append, emitChain_append]
    apply emitChain_progress _ _ _ hsink rfl
    simp only [List.map_append, scanSpecs_progress, buildSpecs_progress,
      bstartSpecs, ccbSpecs, scdSpecs, cfgSpecs, List.map_cons,
      List.map_nil, List.cons_append, List.nil_append]
    apply chainProgress_chain
    simp only [List.filterMap_cons, id_eq, List.filterMap_append,
      warnSpecs_filter, buildOpts_filter, List.filterMap_nil,
      List.nil_append, List.append_nil]
    exact c2_full_chain inp.build_lines inp.build_success [80, 85, 90] hord
      ((nonDecreasing_iff_chain _).mp (by decide))

theorem claim_C2_witness :
    (∀ ev, okSink ev = Except.ok ()) ∧
    PhaseOrdered sampleInputs.build_lines ∧
    ((runDeploy sampleInputs initMonitoring okSink true "deploy-1" 0
        60).events.map (fun e => e.progress)).Chain' (fun a b => a ≤ b) :=
  ⟨fun _ => rfl,
   show PhaseOrdered sampleInputs.build_lines from
     (nonDecreasing_iff_chain _).mp (by decide),
   claim_C2_monotone sampleInputs initMonitoring okSink "deploy-1" 0 60
     (fun _ => rfl)
     (show PhaseOrdered sampleInputs.build_lines from
       (nonDecreasing_iff_chain _).mp (by decide))⟩
